import Mathlib

/-!
Verification development for the `ops` seeding subsystem (`ops/models.py`,
`ops/management/commands/seed_ops.py`).

The Python code is shallowly embedded: Django model rows become Lean
structures, the database becomes a record of lists, `Decimal` arithmetic
(exact for the additions, subtractions and integer multiplications used
here) becomes `ℚ`, and exceptions (`DoesNotExist`, `MultipleObjectsReturned`)
become an `Except` monad.  Python strings are modelled via `String` /
`List Char`; the string primitives used by the code (`upper`, `strip`,
`replace(" ", "")`, slicing, `django.utils.text.slugify`) are modelled for
ASCII inputs, on which they agree with Python's unicode-aware versions.
-/

namespace Bouga

/-- Python `str.upper()` on a list of characters (ASCII model). -/
def pyUpper (l : List Char) : List Char := l.map Char.toUpper

/-- Python `str.lower()` on a list of characters (ASCII model). -/
def pyLower (l : List Char) : List Char := l.map Char.toLower

/-- Python `str.strip()`: drop leading and trailing whitespace (ASCII model). -/
def pyStripChars (l : List Char) : List Char :=
  ((l.dropWhile Char.isWhitespace).reverse.dropWhile Char.isWhitespace).reverse

/-- `seed_ops.build_sku_code` (seed_ops.py lines 22-29): size code uppercased;
fabric name stripped, uppercased, `" "` occurrences removed, first 10 chars;
print part `"PLAIN"` when pattern is `None`, else the pattern name stripped,
uppercased, spaces removed, first 12 chars.  (`size.code or ""` guards a
`None` field; model fields are total strings.) -/
def buildSkuCodeSeed (size_code fabric_name : String) (print_name : Option String) : String :=
  let sc := pyUpper size_code.data
  let fc := (((pyStripChars fabric_name.data).map Char.toUpper).filter (fun c => c != ' ')).take 10
  let pc := match print_name with
    | none => "PLAIN".data
    | some n => (((pyStripChars n.data).map Char.toUpper).filter (fun c => c != ' ')).take 12
  String.mk ("BAG-".data ++ sc ++ "-".data ++ fc ++ "-".data ++ pc)

/-- Characters kept by the first regex pass of `django.utils.text.slugify`
(`re.sub(r"[^\w\s-]", "", ...)`): word chars, whitespace, hyphen. -/
def slugKeep (c : Char) : Bool := c.isAlphanum || c == '_' || c.isWhitespace || c == '-'

/-- Separator characters collapsed by slugify's second pass (`[-\s]+`). -/
def slugSep (c : Char) : Bool := c == '-' || c.isWhitespace

/-- Replace each maximal run of separator characters by a single `'-'`
(slugify's `re.sub(r"[-\s]+", "-", ...)`), via a fold carrying a
"previous char was a separator" flag. -/
def collapseSeps (l : List Char) : List Char :=
  (l.foldl
    (fun acc c =>
      if slugSep c then (if acc.2 then acc else (acc.1 ++ ['-'], true))
      else (acc.1 ++ [c], false))
    (([] : List Char), false)).1

/-- slugify's final `.strip("-_")`. -/
def stripDashUnderscore (l : List Char) : List Char :=
  ((l.dropWhile (fun c => c == '-' || c == '_')).reverse.dropWhile
    (fun c => c == '-' || c == '_')).reverse

/-- `django.utils.text.slugify` for ASCII input (the NFKD/ascii-encode step is
the identity on ASCII): lowercase, drop characters outside `[\w\s-]`,
collapse separator runs to `-`, strip leading/trailing `-`/`_`. -/
def slugifyAscii (s : String) : String :=
  String.mk (stripDashUnderscore (collapseSeps ((pyLower s.data).filter slugKeep)))

/-- `ops.models.build_sku_code` (models.py lines 9-24):
`slugify(name).upper().replace("-", "")` truncated to 10 (fabric) /
12 (print) characters, `"PLAIN"` when the pattern is `None`. -/
def buildSkuCodeModel (size_code fabric_name : String) (print_name : Option String) : String :=
  let sc := pyUpper size_code.data
  let fc := (((slugifyAscii fabric_name).data.map Char.toUpper).filter (fun c => c != '-')).take 10
  let pc := match print_name with
    | none => "PLAIN".data
    | some n => (((slugifyAscii n).data.map Char.toUpper).filter (fun c => c != '-')).take 12
  String.mk ("BAG-".data ++ sc ++ "-".data ++ fc ++ "-".data ++ pc)

/-! ## Entity rows (ops/models.py) -/

/-- `ProductSize`: unique `code`, display name. -/
structure ProductSize where
  code : String
  display_name : String
deriving Repr, DecidableEq

/-- `FabricType`: unique `name`, active flag. -/
structure FabricType where
  name : String
  is_active : Bool
deriving Repr, DecidableEq

/-- `PrintPattern`: unique `name`, active flag. -/
structure PrintPattern where
  name : String
  is_active : Bool
deriving Repr, DecidableEq

/-- `ProductSKU`: unique on (size, fabric_type, print_pattern); foreign keys are
represented by the referenced rows' unique natural keys. -/
structure ProductSKU where
  sku_code : String
  size_code : String
  fabric_name : String
  print_name : Option String
  unit_price : ℚ
  is_active : Bool
deriving Repr, DecidableEq

/-- `InventoryBalance`: unique on (sku, location). -/
structure InventoryBalance where
  size_code : String
  fabric_name : String
  print_name : Option String
  location : String
  qty_on_hand : Int
  reorder_level : Int
deriving Repr, DecidableEq

/-- `FabricMaterial`: unique on (fabric_type, uom, is_printed, print_pattern). -/
structure FabricMaterial where
  fabric_name : String
  uom : String
  is_printed : Bool
  print_name : Option String
deriving Repr, DecidableEq

/-- `FabricInventory`: unique on (fabric_material, location); the material
foreign key is represented by its unique natural-key quadruple. -/
structure FabricInventory where
  material : FabricMaterial
  location : String
  qty_on_hand : ℚ
deriving Repr, DecidableEq

/-- `Customer` (no uniqueness constraint on `full_name` in the schema; the
seeding command nevertheless addresses customers by name). -/
structure Customer where
  full_name : String
  phone : String
  email : String
  address : String
deriving Repr, DecidableEq

/-- `OrderStatus`: unique `code`. -/
structure OrderStatus where
  code : String
  display_name : String
  sort_order : Int
deriving Repr, DecidableEq

/-- `Order`: surrogate primary key `id`, customer/status foreign keys by
natural key, date as an opaque string, four money fields. -/
structure Order where
  id : Nat
  customer : String
  status : String
  order_date : String
  notes : String
  subtotal : ℚ
  shipping_fee : ℚ
  discount : ℚ
  total : ℚ
deriving Repr, DecidableEq

/-- `OrderItem`: belongs to an order (by id), references a SKU (by its
dimension triple), carries qty, unit price and line total. -/
structure OrderItem where
  order_id : Nat
  size_code : String
  fabric_name : String
  print_name : Option String
  qty : Int
  unit_price : ℚ
  line_total : ℚ
deriving Repr, DecidableEq

/-- `ExpenseType`: unique `name`. -/
structure ExpenseType where
  name : String
  is_active : Bool
deriving Repr, DecidableEq

/-- `Expense`: upsert-keyed by (type, amount, date). -/
structure Expense where
  expense_type : String
  amount : ℚ
  expense_date : String
  currency : String
  vendor : String
  notes : String
deriving Repr, DecidableEq

/-- The relational store visible to the seeding command, plus the order
primary-key sequence. -/
structure DB where
  sizes : List ProductSize := []
  fabrics : List FabricType := []
  prints : List PrintPattern := []
  locations : List String := []
  statuses : List OrderStatus := []
  customers : List Customer := []
  expense_types : List ExpenseType := []
  skus : List ProductSKU := []
  balances : List InventoryBalance := []
  materials : List FabricMaterial := []
  fabricStocks : List FabricInventory := []
  orders : List Order := []
  items : List OrderItem := []
  expenses : List Expense := []
  nextOrderId : Nat := 0
deriving Repr, DecidableEq

/-! ## Fixture rows (seed_data.json records).  `Option` fields model JSON keys
that the code reads with `row.get(...)` defaults; for `unit_price` the code
treats a missing key and an explicit `null` identically, so both map to
`none`. -/

/-- A `product_sizes` fixture record. -/
structure SizeRow where
  code : String
  display_name : Option String := none
deriving Repr, DecidableEq

/-- A `fabric_types` fixture record. -/
structure FabricTypeRow where
  name : String
  is_active : Option Bool := none
deriving Repr, DecidableEq

/-- A `print_patterns` fixture record. -/
structure PrintRow where
  name : String
  is_active : Option Bool := none
deriving Repr, DecidableEq

/-- An `order_statuses` fixture record. -/
structure StatusRow where
  code : String
  display_name : Option String := none
  sort_order : Option Int := none
deriving Repr, DecidableEq

/-- A `customers` fixture record. -/
structure CustomerRow where
  full_name : String
  phone : Option String := none
  email : Option String := none
  address : Option String := none
deriving Repr, DecidableEq

/-- A `product_skus` fixture record. -/
structure SkuRow where
  size_code : String
  fabric_type : String
  print_pattern : Option String := none
  unit_price : Option ℚ := none
  is_active : Option Bool := none
deriving Repr, DecidableEq

/-- An `inventory_balances` fixture record. -/
structure BalanceRow where
  size_code : String
  fabric_type : String
  print_pattern : Option String := none
  location : String
  qty_on_hand : Option Int := none
  reorder_level : Option Int := none
deriving Repr, DecidableEq

/-- A `fabric_materials` fixture record. -/
structure FabricMaterialRow where
  fabric_type : String
  uom : Option String := none
  is_printed : Option Bool := none
  print_pattern : Option String := none
deriving Repr, DecidableEq

/-- A `fabric_inventory` fixture record. -/
structure FabricInventoryRow where
  fabric_type : String
  uom : Option String := none
  is_printed : Option Bool := none
  print_pattern : Option String := none
  location : String
  qty_on_hand : Option ℚ := none
deriving Repr, DecidableEq

/-- An entry of an order record's `items` list. -/
structure OrderItemRow where
  size_code : String
  fabric_type : String
  print_pattern : Option String := none
  qty : Int
  unit_price : Option ℚ := none
deriving Repr, DecidableEq

/-- An `orders` fixture record. -/
structure OrderRow where
  customer : String
  status : String
  order_date : String
  notes : Option String := none
  shipping_fee : Option ℚ := none
  discount : Option ℚ := none
  items : List OrderItemRow := []
deriving Repr, DecidableEq

/-- An `expenses` fixture record. -/
structure ExpenseRow where
  expense_type : String
  amount : ℚ
  expense_date : String
  currency : Option String := none
  vendor : Option String := none
  notes : Option String := none
deriving Repr, DecidableEq

/-- The parsed seed_data.json fixture (all top-level keys optional). -/
structure SeedData where
  product_sizes : List SizeRow := []
  fabric_types : List FabricTypeRow := []
  print_patterns : List PrintRow := []
  inventory_locations : List String := []
  order_statuses : List StatusRow := []
  customers : List CustomerRow := []
  expense_types : List String := []
  product_skus : List SkuRow := []
  inventory_balances : List BalanceRow := []
  fabric_materials : List FabricMaterialRow := []
  fabric_inventory : List FabricInventoryRow := []
  orders : List OrderRow := []
  expenses : List ExpenseRow := []
deriving Repr, DecidableEq

/-- Errors the seeding run can surface: Django's `DoesNotExist` and
`MultipleObjectsReturned`, raised by `Model.objects.get`. -/
inductive SeedError where
  | notFound (table key : String)
  | multipleReturned (table key : String)
deriving Repr, DecidableEq

/-- `Model.objects.get(key)`: exactly one matching row, else `DoesNotExist`
or `MultipleObjectsReturned`. -/
def getUnique (table key : String) (p : α → Bool) (l : List α) : Except SeedError α :=
  match l.filter p with
  | [] => .error (.notFound table key)
  | [a] => .ok a
  | _ :: _ :: _ => .error (.multipleReturned table key)

/-- `Command._get_size` (seed_ops.py line 61). -/
def getSize (db : DB) (code : String) : Except SeedError ProductSize :=
  getUnique "ProductSize" code (fun s => s.code == code) db.sizes

/-- `Command._get_fabric` (seed_ops.py line 64). -/
def getFabric (db : DB) (name : String) : Except SeedError FabricType :=
  getUnique "FabricType" name (fun f => f.name == name) db.fabrics

/-- `Command._get_print` (seed_ops.py line 67): `None` passes through. -/
def getPrint (db : DB) : Option String → Except SeedError (Option PrintPattern)
  | none => .ok none
  | some n => (getUnique "PrintPattern" n (fun p => p.name == n) db.prints).map some

/-- `Command._get_location` (seed_ops.py line 72); locations are bare names. -/
def getLocation (db : DB) (name : String) : Except SeedError String :=
  getUnique "InventoryLocation" name (fun l => l == name) db.locations

/-- `Customer.objects.get(full_name=...)` (seed_ops.py line 203). -/
def getCustomer (db : DB) (name : String) : Except SeedError Customer :=
  getUnique "Customer" name (fun c => c.full_name == name) db.customers

/-- `OrderStatus.objects.get(code=...)` (seed_ops.py line 204). -/
def getStatus (db : DB) (code : String) : Except SeedError OrderStatus :=
  getUnique "OrderStatus" code (fun s => s.code == code) db.statuses

/-- `ExpenseType.objects.get(name=...)` (seed_ops.py line 245). -/
def getExpenseType (db : DB) (name : String) : Except SeedError ExpenseType :=
  getUnique "ExpenseType" name (fun t => t.name == name) db.expense_types

/-! ## Row updates.  A Django `save()` updates the single row with the
object's primary key; the store's unique constraints guarantee at most one
row per natural key, so an in-place update is a first-match replacement. -/

/-- Replace the first element satisfying `p` by `b` (a `save()` by key). -/
def replaceFirst (p : α → Bool) (b : α) : List α → List α
  | [] => []
  | a :: rest => if p a then b :: rest else a :: replaceFirst p b rest

/-- `update_or_create` keyed by `p`: update the unique match with `upd`
(applying the `defaults`), or append a freshly created `mk`.  Like Django it
surfaces `MultipleObjectsReturned` when the key is ambiguous. -/
def upsertBy (table key : String) (p : α → Bool) (upd : α → α) (mk : α)
    (l : List α) : Except SeedError (List α) :=
  match l.filter p with
  | [] => .ok (l ++ [mk])
  | [a] => .ok (replaceFirst p (upd a) l)
  | _ :: _ :: _ => .error (.multipleReturned table key)

/-! ## Catalog resolver (`Command._get_sku`, seed_ops.py lines 75-94) -/

/-- Match a stored SKU against a dimension triple (the `get_or_create`
lookup key; foreign keys compare by their unique natural keys). -/
def skuMatches (sc fn : String) (pn : Option String) (s : ProductSKU) : Bool :=
  s.size_code == sc && s.fabric_name == fn && s.print_name == pn

/-- First stored SKU for a dimension triple (unique by DB constraint). -/
def findSku (db : DB) (sc fn : String) (pn : Option String) : Option ProductSKU :=
  db.skus.find? (skuMatches sc fn pn)

/-- The pure part of `_get_sku` after the dimension rows are resolved:
`ProductSKU.objects.get_or_create` on the triple with defaults
(code from `build_sku_code`, price `0.00`, active), followed by the
blank-`sku_code` backfill (`if not sku.sku_code: ... sku.save(...)`).
Returns the resolved SKU together with the updated store. -/
def skuFor (db : DB) (sc fn : String) (pn : Option String) : ProductSKU × DB :=
  match findSku db sc fn pn with
  | some sku =>
      if sku.sku_code = "" then
        let sku' := { sku with sku_code := buildSkuCodeSeed sc fn pn }
        (sku', { db with skus := replaceFirst (skuMatches sc fn pn) sku' db.skus })
      else (sku, db)
  | none =>
      let sku : ProductSKU :=
        { sku_code := buildSkuCodeSeed sc fn pn, size_code := sc, fabric_name := fn,
          print_name := pn, unit_price := 0, is_active := true }
      (sku, { db with skus := db.skus ++ [sku] })

/-- `Command._get_sku`: resolve the three dimension rows (any missing name
raises), then find-or-create the SKU for the exact triple.  The resolved
rows carry exactly the looked-up names (their key columns are unique), so
the `get_or_create` key equals the input triple. -/
def getSku (db : DB) (sc fn : String) (pn : Option String) :
    Except SeedError (ProductSKU × DB) := do
  let size ← getSize db sc
  let fabric ← getFabric db fn
  let pattern ← getPrint db pn
  pure (skuFor db size.code fabric.name (pattern.map (fun p => p.name)))

/-- One `product_skus` record of `Command._seed_skus_and_inventory`
(seed_ops.py lines 150-156): resolve the SKU, then overwrite
`unit_price`/`is_active` only when the record supplies a non-null
`unit_price` (`if "unit_price" in row and row["unit_price"] is not None`). -/
def seedSkuRow (db : DB) (row : SkuRow) : Except SeedError DB := do
  let (sku, db1) ← getSku db row.size_code row.fabric_type row.print_pattern
  match row.unit_price with
  | none => pure db1
  | some p =>
      let sku' := { sku with unit_price := p, is_active := row.is_active.getD true }
      pure { db1 with
        skus := replaceFirst (skuMatches sku.size_code sku.fabric_name sku.print_name)
          sku' db1.skus }

/-- One `inventory_balances` record (seed_ops.py lines 159-169):
resolve SKU and location, then `update_or_create` the balance. -/
def seedBalanceRow (db : DB) (row : BalanceRow) : Except SeedError DB := do
  let (sku, db1) ← getSku db row.size_code row.fabric_type row.print_pattern
  let loc ← getLocation db1 row.location
  let bMatch := fun (b : InventoryBalance) =>
    b.size_code == sku.size_code && b.fabric_name == sku.fabric_name &&
      b.print_name == sku.print_name && b.location == loc
  let qty := row.qty_on_hand.getD 0
  let lvl := row.reorder_level.getD 0
  let balances' ← upsertBy "InventoryBalance" loc bMatch
    (fun b => { b with qty_on_hand := qty, reorder_level := lvl })
    { size_code := sku.size_code, fabric_name := sku.fabric_name,
      print_name := sku.print_name, location := loc,
      qty_on_hand := qty, reorder_level := lvl }
    db1.balances
  pure { db1 with balances := balances' }

/-- `Command._seed_skus_and_inventory` (seed_ops.py lines 148-169). -/
def seedSkusAndInventory (db : DB) (data : SeedData) : Except SeedError DB := do
  let db1 ← data.product_skus.foldlM seedSkuRow db
  data.inventory_balances.foldlM seedBalanceRow db1

/-! ## Fabric steps (`Command._seed_fabrics`, seed_ops.py lines 171-199) -/

/-- The fabric-material natural key assembled by `_seed_fabrics`: the pattern
is included only when the printed flag is true, else forced to `None`
(`print_pattern=pattern if bool(row.get("is_printed", False)) else None`). -/
def materialKeyOf (fabricName uom : String) (isPrinted : Bool)
    (pattern : Option PrintPattern) : FabricMaterial :=
  { fabric_name := fabricName, uom := uom, is_printed := isPrinted,
    print_name := if isPrinted then pattern.map (fun p => p.name) else none }

/-- One `fabric_materials` record (seed_ops.py lines 173-182): resolve the
fabric and the (possibly absent) pattern, then `update_or_create` the
material variant with empty defaults. -/
def seedFabricMaterialRow (db : DB) (row : FabricMaterialRow) : Except SeedError DB := do
  let fabric ← getFabric db row.fabric_type
  let pattern ← getPrint db row.print_pattern
  let materials' ← upsertBy "FabricMaterial" fabric.name
    (fun m => m == materialKeyOf fabric.name (row.uom.getD "meter")
      (row.is_printed.getD false) pattern)
    id
    (materialKeyOf fabric.name (row.uom.getD "meter") (row.is_printed.getD false) pattern)
    db.materials
  pure { db with materials := materials' }

/-- One `fabric_inventory` record (seed_ops.py lines 185-199): resolve fabric
and pattern, `get_or_create` the material variant, resolve the location,
then `update_or_create` the stock row. -/
def seedFabricInventoryRow (db : DB) (row : FabricInventoryRow) : Except SeedError DB := do
  let fabric ← getFabric db row.fabric_type
  let pattern ← getPrint db row.print_pattern
  let (mat, materials') :=
    match db.materials.find? (fun m => m == materialKeyOf fabric.name (row.uom.getD "meter")
        (row.is_printed.getD false) pattern) with
    | some m => (m, db.materials)
    | none =>
        (materialKeyOf fabric.name (row.uom.getD "meter") (row.is_printed.getD false) pattern,
          db.materials ++
            [materialKeyOf fabric.name (row.uom.getD "meter") (row.is_printed.getD false) pattern])
  let db1 := { db with materials := materials' }
  let loc ← getLocation db1 row.location
  let stocks' ← upsertBy "FabricInventory" loc
    (fun s => s.material == mat && s.location == loc)
    (fun s => { s with qty_on_hand := row.qty_on_hand.getD 0 })
    { material := mat, location := loc, qty_on_hand := row.qty_on_hand.getD 0 }
    db1.fabricStocks
  pure { db1 with fabricStocks := stocks' }

/-- `Command._seed_fabrics` (seed_ops.py lines 171-199). -/
def seedFabrics (db : DB) (data : SeedData) : Except SeedError DB := do
  let db1 ← data.fabric_materials.foldlM seedFabricMaterialRow db
  data.fabric_inventory.foldlM seedFabricInventoryRow db1

/-! ## Order builder (`Command._seed_orders`, seed_ops.py lines 201-241) -/

/-- The weak order-identity key: exact match on (customer, order_date, notes)
(`Order.objects.filter(...).first()`, seed_ops.py line 208). -/
def orderKeyMatches (cust date notes : String) (o : Order) : Bool :=
  o.customer == cust && o.order_date == date && o.notes == notes

/-- Items attached to an order (`order.items.all()`). -/
def itemsOfOrder (db : DB) (oid : Nat) : List OrderItem :=
  db.items.filter (fun it => it.order_id == oid)

/-- Sum of the `line_total` column over a list of items. -/
def sumLineTotals (l : List OrderItem) : ℚ :=
  (l.map (fun it => it.line_total)).sum

/-- The per-item loop of `_seed_orders` (seed_ops.py lines 225-237): resolve
the SKU, take `unit_price` from the record if given else the SKU's stored
price, compute `line_total = unit_price * qty`, create the `OrderItem`, and
accumulate the running subtotal. -/
def buildItems (oid : Nat) (db : DB) (subtotal : ℚ) :
    List OrderItemRow → Except SeedError (DB × ℚ)
  | [] => .ok (db, subtotal)
  | it :: rest => do
      let (sku, db1) ← getSku db it.size_code it.fabric_type it.print_pattern
      let unit_price := it.unit_price.getD sku.unit_price
      let line_total := unit_price * (it.qty : ℚ)
      let db2 := { db1 with items := db1.items ++
        [{ order_id := oid, size_code := sku.size_code, fabric_name := sku.fabric_name,
           print_name := sku.print_name, qty := it.qty,
           unit_price := unit_price, line_total := line_total }] }
      buildItems oid db2 (subtotal + line_total) rest

/-- One `orders` record of `Command._seed_orders`, instrumented to also
return the resolved order's id: resolve customer and status; reuse the
first (customer, date, notes) match or create a fresh order with the given
shipping fee and discount; delete all of its line items; recreate the
requested items accumulating `subtotal`; finally save `subtotal` and
`total = subtotal + shipping_fee - discount` computed from the header's
stored fee and discount (`order.shipping_fee` / `order.discount`). -/
def seedOrderRowCore (db : DB) (row : OrderRow) : Except SeedError (DB × Nat) := do
  let customer ← getCustomer db row.customer
  let status ← getStatus db row.status
  let (order, db1) :=
    match db.orders.find?
        (orderKeyMatches customer.full_name row.order_date (row.notes.getD "")) with
    | some o => (o, db)
    | none =>
        let o : Order :=
          { id := db.nextOrderId, customer := customer.full_name, status := status.code,
            order_date := row.order_date, notes := row.notes.getD "",
            subtotal := 0, shipping_fee := row.shipping_fee.getD 0,
            discount := row.discount.getD 0, total := 0 }
        (o, { db with orders := db.orders ++ [o], nextOrderId := db.nextOrderId + 1 })
  let db2 := { db1 with items := db1.items.filter (fun it => it.order_id != order.id) }
  let (db3, subtotal) ← buildItems order.id db2 0 row.items
  let order' := { order with subtotal := subtotal,
                             total := subtotal + order.shipping_fee - order.discount }
  pure ({ db3 with orders := replaceFirst (fun o => o.id == order.id) order' db3.orders },
        order.id)

/-- One `orders` record, as run by the command (the resolved id dropped). -/
def seedOrderRow (db : DB) (row : OrderRow) : Except SeedError DB :=
  (seedOrderRowCore db row).map (fun r => r.1)

/-- `Command._seed_orders` (seed_ops.py lines 201-241). -/
def seedOrders (db : DB) (data : SeedData) : Except SeedError DB :=
  data.orders.foldlM seedOrderRow db

/-! ## Reference-data and expense upserts -/

/-- `Command._seed_reference` (seed_ops.py lines 97-146): seven keyed
`update_or_create` passes. -/
def seedReference (db : DB) (data : SeedData) : Except SeedError DB := do
  let sizes ← data.product_sizes.foldlM
    (fun l row => upsertBy "ProductSize" row.code (fun s => s.code == row.code)
      (fun s => { s with display_name := row.display_name.getD row.code })
      { code := row.code, display_name := row.display_name.getD row.code } l)
    db.sizes
  let fabrics ← data.fabric_types.foldlM
    (fun l row => upsertBy "FabricType" row.name (fun f => f.name == row.name)
      (fun f => { f with is_active := row.is_active.getD true })
      { name := row.name, is_active := row.is_active.getD true } l)
    db.fabrics
  let prints ← data.print_patterns.foldlM
    (fun l row => upsertBy "PrintPattern" row.name (fun p => p.name == row.name)
      (fun p => { p with is_active := row.is_active.getD true })
      { name := row.name, is_active := row.is_active.getD true } l)
    db.prints
  let locations ← data.inventory_locations.foldlM
    (fun l name => upsertBy "InventoryLocation" name (fun x => x == name) id name l)
    db.locations
  let statuses ← data.order_statuses.foldlM
    (fun l row => upsertBy "OrderStatus" row.code (fun s => s.code == row.code)
      (fun s => { s with display_name := row.display_name.getD row.code,
                         sort_order := row.sort_order.getD 0 })
      { code := row.code, display_name := row.display_name.getD row.code,
        sort_order := row.sort_order.getD 0 } l)
    db.statuses
  let customers ← data.customers.foldlM
    (fun l row => upsertBy "Customer" row.full_name (fun c => c.full_name == row.full_name)
      (fun c => { c with phone := row.phone.getD "", email := row.email.getD "",
                         address := row.address.getD "" })
      { full_name := row.full_name, phone := row.phone.getD "",
        email := row.email.getD "", address := row.address.getD "" } l)
    db.customers
  let etypes ← data.expense_types.foldlM
    (fun l name => upsertBy "ExpenseType" name (fun t => t.name == name)
      (fun t => { t with is_active := true })
      { name := name, is_active := true } l)
    db.expense_types
  pure { db with sizes := sizes, fabrics := fabrics, prints := prints,
                 locations := locations, statuses := statuses,
                 customers := customers, expense_types := etypes }

/-- One `expenses` record (`Command._seed_expenses`, seed_ops.py lines
244-255): resolve the type, upsert keyed by (type, amount, date). -/
def seedExpenseRow (db : DB) (row : ExpenseRow) : Except SeedError DB := do
  let et ← getExpenseType db row.expense_type
  let expenses' ← upsertBy "Expense" et.name
    (fun e => e.expense_type == et.name && e.amount == row.amount &&
      e.expense_date == row.expense_date)
    (fun e => { e with currency := row.currency.getD "EGP",
                       vendor := row.vendor.getD "", notes := row.notes.getD "" })
    { expense_type := et.name, amount := row.amount, expense_date := row.expense_date,
      currency := row.currency.getD "EGP", vendor := row.vendor.getD "",
      notes := row.notes.getD "" }
    db.expenses
  pure { db with expenses := expenses' }

/-- `Command._seed_expenses` (seed_ops.py lines 243-255). -/
def seedExpenses (db : DB) (data : SeedData) : Except SeedError DB :=
  data.expenses.foldlM seedExpenseRow db

/-- The body of `Command.handle`'s transaction (seed_ops.py lines 51-56):
the five steps in dependency order, each propagating any error. -/
def seedAll (db : DB) (data : SeedData) : Except SeedError DB := do
  let d1 ← seedReference db data
  let d2 ← seedSkusAndInventory d1 data
  let d3 ← seedFabrics d2 data
  let d4 ← seedOrders d3 data
  seedExpenses d4 data

/-- The state the store holds after `Command.handle` returns or raises:
`transaction.atomic()` commits the new state on success and rolls the store
back to its pre-run state when the (uncaught) error propagates out. -/
def persistedState (db : DB) (data : SeedData) : DB :=
  match seedAll db data with
  | .ok db' => db'
  | .error _ => db

/-- `ProductSKU.save` (models.py lines 95-98): derive the code via the model
module's `build_sku_code` only when the stored code is blank, then persist. -/
def productSKUSave (s : ProductSKU) : ProductSKU :=
  if s.sku_code = "" then
    { s with sku_code := buildSkuCodeModel s.size_code s.fabric_name s.print_name }
  else s

/-! ## Generic list lemmas -/

theorem find?_isSome_of_mem {p : α → Bool} {b : α} :
    ∀ {l : List α}, b ∈ l → p b = true → ∃ a, l.find? p = some a ∧ p a = true := by
  intro l
  induction l with
  | nil => intro hb; cases hb
  | cons x rest ih =>
      intro hb hpb
      by_cases hx : p x = true
      · exact ⟨x, by simp [List.find?_cons, hx], hx⟩
      · rcases List.mem_cons.mp hb with hb | hb
        · subst hb; exact absurd hpb hx
        · rcases ih hb hpb with ⟨a, ha, hpa⟩
          refine ⟨a, ?_, hpa⟩
          rw [List.find?_cons_of_neg _ (by simpa using hx), ha]

theorem find?_append_of_none {p : α → Bool} {l₁ l₂ : List α}
    (h : l₁.find? p = none) : (l₁ ++ l₂).find? p = l₂.find? p := by
  induction l₁ with
  | nil => simp
  | cons x rest ih =>
      rw [List.find?_cons] at h
      cases hx : p x with
      | true => simp [hx] at h
      | false =>
          simp only [hx] at h
          rw [List.cons_append, List.find?_cons_of_neg _ (by simp [hx])]
          exact ih h

theorem replaceFirst_of_find?_none {p : α → Bool} {b : α} {l : List α}
    (h : l.find? p = none) : replaceFirst p b l = l := by
  induction l with
  | nil => rfl
  | cons x rest ih =>
      rw [List.find?_cons] at h
      cases hx : p x with
      | true => simp [hx] at h
      | false =>
          simp only [hx] at h
          simp [replaceFirst, hx, ih h]

theorem find?_replaceFirst_same {p q : α → Bool} {b a : α} {l : List α}
    (hq : l.find? q = some a) (hpa : p a = true) (hqb : q b = true) :
    (replaceFirst p b l).find? q = some b := by
  induction l with
  | nil => simp at hq
  | cons x rest ih =>
      by_cases hx : p x = true
      · rw [replaceFirst, if_pos hx, List.find?_cons_of_pos _ hqb]
      · rw [replaceFirst, if_neg hx]
        by_cases hqx : q x = true
        · rw [List.find?_cons_of_pos _ hqx] at hq
          cases hq
          exact absurd hpa hx
        · rw [List.find?_cons_of_neg _ (by simpa using hqx)] at hq
          rw [List.find?_cons_of_neg _ (by simpa using hqx)]
          exact ih hq

theorem find?_replaceFirst_other {p q : α → Bool} {b : α} {l : List α}
    (hdisj : ∀ x, p x = true → q x = false) (hqb : q b = false) :
    (replaceFirst p b l).find? q = l.find? q := by
  induction l with
  | nil => rfl
  | cons x rest ih =>
      by_cases hx : p x = true
      · rw [replaceFirst, if_pos hx, List.find?_cons_of_neg _ (by simp [hqb]),
          List.find?_cons_of_neg _ (by simp [hdisj x hx])]
      · rw [replaceFirst, if_neg hx]
        by_cases hqx : q x = true
        · rw [List.find?_cons_of_pos _ hqx, List.find?_cons_of_pos _ hqx]
        · rw [List.find?_cons_of_neg _ (by simpa using hqx),
            List.find?_cons_of_neg _ (by simpa using hqx)]
          exact ih

theorem mem_replaceFirst {p : α → Bool} {b x : α} {l : List α}
    (h : x ∈ replaceFirst p b l) : x = b ∨ x ∈ l := by
  induction l with
  | nil => cases h
  | cons y rest ih =>
      by_cases hy : p y = true
      · rw [replaceFirst, if_pos hy] at h
        rcases List.mem_cons.mp h with h | h
        · exact Or.inl h
        · exact Or.inr (List.mem_cons_of_mem _ h)
      · rw [replaceFirst, if_neg hy] at h
        rcases List.mem_cons.mp h with h | h
        · subst h; exact Or.inr (List.mem_cons_self _ _)
        · rcases ih h with h | h
          · exact Or.inl h
          · exact Or.inr (List.mem_cons_of_mem _ h)

/-! ## `getUnique` and lookup lemmas -/

theorem getUnique_ok {p : α → Bool} {l : List α} {t k : String} {a : α}
    (h : getUnique t k p l = .ok a) : p a = true ∧ a ∈ l := by
  unfold getUnique at h
  cases hf : l.filter p with
  | nil => rw [hf] at h; cases h
  | cons x tl =>
      cases tl with
      | nil =>
          rw [hf] at h
          cases h
          have hx : a ∈ l.filter p := by rw [hf]; exact List.mem_cons_self _ _
          exact ⟨(List.mem_filter.mp hx).2, (List.mem_filter.mp hx).1⟩
      | cons y tl2 => rw [hf] at h; cases h

theorem getSize_ok_code {db : DB} {c : String} {z : ProductSize}
    (h : getSize db c = .ok z) : z.code = c := by
  have := (getUnique_ok h).1
  simpa using this

theorem getFabric_ok_name {db : DB} {n : String} {f : FabricType}
    (h : getFabric db n = .ok f) : f.name = n := by
  have := (getUnique_ok h).1
  simpa using this

theorem getPrint_ok_names {db : DB} {pn : Option String} {po : Option PrintPattern}
    (h : getPrint db pn = .ok po) : po.map (fun p => p.name) = pn := by
  cases pn with
  | none => cases h; rfl
  | some n =>
      simp only [getPrint] at h
      cases hg : getUnique "PrintPattern" n (fun p => p.name == n) db.prints with
      | error e => rw [hg] at h; cases h
      | ok p =>
          rw [hg] at h
          cases h
          have := (getUnique_ok hg).1
          simp_all

theorem getCustomer_ok_name {db : DB} {n : String} {c : Customer}
    (h : getCustomer db n = .ok c) : c.full_name = n := by
  have := (getUnique_ok h).1
  simpa using this

theorem getStatus_ok_code {db : DB} {c : String} {s : OrderStatus}
    (h : getStatus db c = .ok s) : s.code = c := by
  have := (getUnique_ok h).1
  simpa using this

theorem getSize_congr {db db' : DB} (h : db'.sizes = db.sizes) (c : String) :
    getSize db' c = getSize db c := by
  unfold getSize; rw [h]

theorem getFabric_congr {db db' : DB} (h : db'.fabrics = db.fabrics) (n : String) :
    getFabric db' n = getFabric db n := by
  unfold getFabric; rw [h]

theorem getPrint_congr {db db' : DB} (h : db'.prints = db.prints) (pn : Option String) :
    getPrint db' pn = getPrint db pn := by
  cases pn with
  | none => rfl
  | some n => unfold getPrint; rw [h]

theorem getCustomer_congr {db db' : DB} (h : db'.customers = db.customers) (n : String) :
    getCustomer db' n = getCustomer db n := by
  unfold getCustomer; rw [h]

theorem getStatus_congr {db db' : DB} (h : db'.statuses = db.statuses) (c : String) :
    getStatus db' c = getStatus db c := by
  unfold getStatus; rw [h]


theorem skuMatches_iff {sc fn : String} {pn : Option String} {s : ProductSKU} :
    skuMatches sc fn pn s = true ↔
      (s.size_code = sc ∧ s.fabric_name = fn ∧ s.print_name = pn) := by
  simp [skuMatches, and_assoc]

theorem buildSkuCodeSeed_ne_blank (sc fn : String) (pn : Option String) :
    buildSkuCodeSeed sc fn pn ≠ "" := by
  intro h
  have h2 := congrArg String.data h
  have h3 : "BAG-".data = ['B', 'A', 'G', '-'] := rfl
  simp [buildSkuCodeSeed, h3] at h2

def createdSku (sc fn : String) (pn : Option String) : ProductSKU :=
  { sku_code := buildSkuCodeSeed sc fn pn, size_code := sc, fabric_name := fn,
    print_name := pn, unit_price := 0, is_active := true }

def backfilledSku (sc fn : String) (pn : Option String) (s : ProductSKU) : ProductSKU :=
  { s with sku_code := buildSkuCodeSeed sc fn pn }

theorem skuFor_cases (db : DB) (sc fn : String) (pn : Option String) :
    (findSku db sc fn pn = none ∧
      skuFor db sc fn pn =
        (createdSku sc fn pn, { db with skus := db.skus ++ [createdSku sc fn pn] })) ∨
    (∃ s, findSku db sc fn pn = some s ∧ s.sku_code ≠ "" ∧ skuFor db sc fn pn = (s, db)) ∨
    (∃ s, findSku db sc fn pn = some s ∧ s.sku_code = "" ∧
      skuFor db sc fn pn =
        (backfilledSku sc fn pn s,
         { db with skus := replaceFirst (skuMatches sc fn pn) (backfilledSku sc fn pn s) db.skus })) := by
  unfold skuFor
  cases hf : findSku db sc fn pn with
  | none => exact Or.inl ⟨rfl, rfl⟩
  | some s =>
      by_cases hc : s.sku_code = ""
      · refine Or.inr (Or.inr ⟨s, rfl, hc, ?_⟩)
        dsimp only
        rw [if_pos hc]
        rfl
      · refine Or.inr (Or.inl ⟨s, rfl, hc, ?_⟩)
        dsimp only
        rw [if_neg hc]


theorem skuFor_of_resolved {db : DB} {sc fn : String} {pn : Option String} {s : ProductSKU}
    (hf : findSku db sc fn pn = some s) (hc : s.sku_code ≠ "") :
    skuFor db sc fn pn = (s, db) := by
  rcases skuFor_cases db sc fn pn with ⟨hn, _⟩ | ⟨t, ht, _, he⟩ | ⟨t, ht, hb, _⟩
  · rw [hf] at hn; cases hn
  · rw [hf] at ht; cases ht; exact he
  · rw [hf] at ht; cases ht; exact absurd hb hc

theorem skuFor_key (db : DB) (sc fn : String) (pn : Option String) :
    (skuFor db sc fn pn).1.size_code = sc ∧ (skuFor db sc fn pn).1.fabric_name = fn ∧
      (skuFor db sc fn pn).1.print_name = pn := by
  rcases skuFor_cases db sc fn pn with ⟨hf, he⟩ | ⟨s, hf, hc, he⟩ | ⟨s, hf, hc, he⟩
  · rw [he]; exact ⟨rfl, rfl, rfl⟩
  · rw [he]; exact skuMatches_iff.mp (List.find?_some hf)
  · rw [he]
    have h3 := skuMatches_iff.mp (List.find?_some hf)
    exact ⟨h3.1, h3.2.1, h3.2.2⟩

theorem skuFor_code_ne_blank (db : DB) (sc fn : String) (pn : Option String) :
    (skuFor db sc fn pn).1.sku_code ≠ "" := by
  rcases skuFor_cases db sc fn pn with ⟨hf, he⟩ | ⟨s, hf, hc, he⟩ | ⟨s, hf, hc, he⟩
  · rw [he]; exact buildSkuCodeSeed_ne_blank sc fn pn
  · rw [he]; exact hc
  · rw [he]; exact buildSkuCodeSeed_ne_blank sc fn pn

theorem findSku_skuFor_self (db : DB) (sc fn : String) (pn : Option String) :
    findSku (skuFor db sc fn pn).2 sc fn pn = some (skuFor db sc fn pn).1 := by
  rcases skuFor_cases db sc fn pn with ⟨hf, he⟩ | ⟨s, hf, hc, he⟩ | ⟨s, hf, hc, he⟩
  · rw [he]
    show (db.skus ++ [createdSku sc fn pn]).find? _ = _
    rw [find?_append_of_none hf]
    simp [List.find?_cons, skuMatches, createdSku]
  · rw [he]; exact hf
  · rw [he]
    show (replaceFirst (skuMatches sc fn pn) _ db.skus).find? _ = _
    refine find?_replaceFirst_same hf (List.find?_some hf) ?_
    have h3 := skuMatches_iff.mp (List.find?_some hf)
    exact skuMatches_iff.mpr ⟨h3.1, h3.2.1, h3.2.2⟩

theorem findSku_skuFor_other {db : DB} {sc fn sc' fn' : String} {pn pn' : Option String}
    (hne : ¬(sc' = sc ∧ fn' = fn ∧ pn' = pn)) :
    findSku (skuFor db sc fn pn).2 sc' fn' pn' = findSku db sc' fn' pn' := by
  have hdisj : ∀ x, skuMatches sc fn pn x = true → skuMatches sc' fn' pn' x = false := by
    intro x hx
    rcases skuMatches_iff.mp hx with ⟨h1, h2, h3⟩
    rw [← Bool.not_eq_true]
    intro hx'
    rcases skuMatches_iff.mp hx' with ⟨g1, g2, g3⟩
    exact hne ⟨by rw [← g1, h1], by rw [← g2, h2], by rw [← g3, h3]⟩
  rcases skuFor_cases db sc fn pn with ⟨hf, he⟩ | ⟨s, hf, hc, he⟩ | ⟨s, hf, hc, he⟩
  · rw [he]
    have hcr : skuMatches sc' fn' pn' (createdSku sc fn pn) = false := by
      apply hdisj
      simp [skuMatches, createdSku]
    show (db.skus ++ [createdSku sc fn pn]).find? _ = _
    rw [List.find?_append]
    simp [List.find?_cons, hcr]
    rfl
  · rw [he]
  · rw [he]
    show (replaceFirst (skuMatches sc fn pn) _ db.skus).find? _ = _
    refine find?_replaceFirst_other hdisj ?_
    apply hdisj
    have h3 := skuMatches_iff.mp (List.find?_some hf)
    exact skuMatches_iff.mpr ⟨h3.1, h3.2.1, h3.2.2⟩

theorem skuFor_snd_skus_shape (db : DB) (sc fn : String) (pn : Option String) :
    ∃ l, (skuFor db sc fn pn).2 = { db with skus := l } := by
  rcases skuFor_cases db sc fn pn with ⟨hf, he⟩ | ⟨s, hf, hc, he⟩ | ⟨s, hf, hc, he⟩
  · rw [he]; exact ⟨_, rfl⟩
  · rw [he]; exact ⟨db.skus, rfl⟩
  · rw [he]; exact ⟨_, rfl⟩

theorem findSku_skuFor_mono {db : DB} {sc fn sc' fn' : String} {pn pn' : Option String}
    {t : ProductSKU} (hf : findSku db sc' fn' pn' = some t) (hc : t.sku_code ≠ "") :
    findSku (skuFor db sc fn pn).2 sc' fn' pn' = some t := by
  by_cases heq : sc' = sc ∧ fn' = fn ∧ pn' = pn
  · rcases heq with ⟨h1, h2, h3⟩
    subst h1; subst h2; subst h3
    rw [skuFor_of_resolved hf hc]
    exact hf
  · rw [findSku_skuFor_other heq]
    exact hf


theorem except_bind_ok {α β : Type} {x : Except SeedError α} {f : α → Except SeedError β} {b : β}
    (h : x >>= f = .ok b) : ∃ a, x = .ok a ∧ f a = .ok b := by
  cases x with
  | error e => cases h
  | ok a => exact ⟨a, rfl, h⟩

theorem except_bind_error {α β : Type} {x : Except SeedError α} {f : α → Except SeedError β}
    {a : α} (hx : x = .ok a) : x >>= f = f a := by
  rw [hx]; rfl

theorem getSku_ok_eq {db db' : DB} {sc fn : String} {pn : Option String} {s : ProductSKU}
    (h : getSku db sc fn pn = .ok (s, db')) :
    skuFor db sc fn pn = (s, db') ∧
      (∃ z, getSize db sc = .ok z) ∧ (∃ f, getFabric db fn = .ok f) ∧
      (∃ po, getPrint db pn = .ok po) := by
  unfold getSku at h
  rcases except_bind_ok h with ⟨z, hz, h⟩
  rcases except_bind_ok h with ⟨f, hf, h⟩
  rcases except_bind_ok h with ⟨po, hp, h⟩
  have hzc := getSize_ok_code hz
  have hfn := getFabric_ok_name hf
  have hpn := getPrint_ok_names hp
  rw [hzc, hfn, hpn] at h
  have h2 : Except.ok (ε := SeedError) (skuFor db sc fn pn) = .ok (s, db') := h
  injection h2 with h3
  exact ⟨h3, ⟨z, hz⟩, ⟨f, hf⟩, ⟨po, hp⟩⟩

theorem getSku_eq_of_lookups {db : DB} {sc fn : String} {pn : Option String}
    {z : ProductSize} {f : FabricType} {po : Option PrintPattern}
    (hz : getSize db sc = .ok z) (hf : getFabric db fn = .ok f)
    (hp : getPrint db pn = .ok po) :
    getSku db sc fn pn = .ok (skuFor db sc fn pn) := by
  unfold getSku
  rw [except_bind_error hz, except_bind_error hf, except_bind_error hp,
    getSize_ok_code hz, getFabric_ok_name hf, getPrint_ok_names hp]
  rfl

/-- A SKU has been durably resolved for a triple: it is the store's first
(by uniqueness: only) match and its code is non-blank. -/
def skuResolved (db : DB) (sc fn : String) (pn : Option String) (s : ProductSKU) : Prop :=
  findSku db sc fn pn = some s ∧ s.sku_code ≠ ""

theorem findSku_congr {db db' : DB} (h : db'.skus = db.skus) (sc fn : String)
    (pn : Option String) : findSku db' sc fn pn = findSku db sc fn pn := by
  unfold findSku; rw [h]

theorem getSku_ok_shape {db db' : DB} {sc fn : String} {pn : Option String} {s : ProductSKU}
    (h : getSku db sc fn pn = .ok (s, db')) : ∃ l, db' = { db with skus := l } := by
  rcases getSku_ok_eq h with ⟨he, -⟩
  rcases skuFor_snd_skus_shape db sc fn pn with ⟨l, hl⟩
  rw [he] at hl
  exact ⟨l, hl⟩

theorem getSku_resolved_self {db db' : DB} {sc fn : String} {pn : Option String}
    {s : ProductSKU} (h : getSku db sc fn pn = .ok (s, db')) :
    skuResolved db' sc fn pn s := by
  rcases getSku_ok_eq h with ⟨he, -⟩
  have h1 := findSku_skuFor_self db sc fn pn
  have h2 := skuFor_code_ne_blank db sc fn pn
  rw [he] at h1 h2
  exact ⟨h1, h2⟩

theorem getSku_preserves_resolved {db db' : DB} {sc fn sc' fn' : String}
    {pn pn' : Option String} {s t : ProductSKU}
    (h : getSku db sc' fn' pn' = .ok (s, db')) (hr : skuResolved db sc fn pn t) :
    skuResolved db' sc fn pn t := by
  rcases getSku_ok_eq h with ⟨he, -⟩
  have hdb : db' = (skuFor db sc' fn' pn').2 := by rw [he]
  rw [hdb]
  exact ⟨findSku_skuFor_mono hr.1 hr.2, hr.2⟩

theorem getSku_of_resolved {db : DB} {sc fn : String} {pn : Option String} {s : ProductSKU}
    {z : ProductSize} {f : FabricType} {po : Option PrintPattern}
    (hr : skuResolved db sc fn pn s) (hz : getSize db sc = .ok z)
    (hf : getFabric db fn = .ok f) (hp : getPrint db pn = .ok po) :
    getSku db sc fn pn = .ok (s, db) := by
  rw [getSku_eq_of_lookups hz hf hp, skuFor_of_resolved hr.1 hr.2]

theorem buildItems_spec {oid : Nat} :
    ∀ (rows : List OrderItemRow) (db : DB) (st : ℚ) (db' : DB) (st' : ℚ),
    buildItems oid db st rows = .ok (db', st') →
    ∃ new : List OrderItem,
      db'.items = db.items ++ new ∧
      st' = st + sumLineTotals new ∧
      (∀ it ∈ new, it.order_id = oid ∧ it.line_total = it.unit_price * (it.qty : ℚ)) ∧
      db'.orders = db.orders ∧ db'.customers = db.customers ∧ db'.statuses = db.statuses ∧
      db'.sizes = db.sizes ∧ db'.fabrics = db.fabrics ∧ db'.prints = db.prints ∧
      db'.nextOrderId = db.nextOrderId := by
  intro rows
  induction rows with
  | nil =>
      intro db st db' st' h
      unfold buildItems at h
      have h2 : Except.ok (ε := SeedError) (db, st) = .ok (db', st') := h
      injection h2 with h3
      injection h3 with h4 h5
      subst h4; subst h5
      exact ⟨[], by simp, by simp [sumLineTotals], by simp, rfl, rfl, rfl, rfl, rfl, rfl, rfl⟩
  | cons it rest ih =>
      intro db st db' st' h
      unfold buildItems at h
      rcases except_bind_ok h with ⟨⟨sku, db1⟩, hg, h⟩
      rcases getSku_ok_shape hg with ⟨l, hl⟩
      subst hl
      rcases ih _ _ _ _ h with ⟨new', hitems, hst, hprops, hord, hcust, hstat, hsiz,
        hfab, hpr, hnext⟩
      refine ⟨{ order_id := oid, size_code := sku.size_code, fabric_name := sku.fabric_name,
                print_name := sku.print_name, qty := it.qty,
                unit_price := it.unit_price.getD sku.unit_price,
                line_total := it.unit_price.getD sku.unit_price * (it.qty : ℚ) } :: new',
        ?_, ?_, ?_, hord, hcust, hstat, hsiz, hfab, hpr, hnext⟩
      · rw [hitems]; simp
      · rw [hst]; simp [sumLineTotals]; ring
      · intro x hx
        rcases List.mem_cons.mp hx with hx | hx
        · subst hx; exact ⟨rfl, rfl⟩
        · exact hprops x hx

theorem buildItems_preserves_resolved {oid : Nat} {sc fn : String} {pn : Option String}
    {t : ProductSKU} :
    ∀ (rows : List OrderItemRow) (db : DB) (st : ℚ) (db' : DB) (st' : ℚ),
    buildItems oid db st rows = .ok (db', st') →
    skuResolved db sc fn pn t → skuResolved db' sc fn pn t := by
  intro rows
  induction rows with
  | nil =>
      intro db st db' st' h hr
      unfold buildItems at h
      have h2 : Except.ok (ε := SeedError) (db, st) = .ok (db', st') := h
      injection h2 with h3
      injection h3 with h4 h5
      subst h4
      exact hr
  | cons it rest ih =>
      intro db st db' st' h hr
      unfold buildItems at h
      rcases except_bind_ok h with ⟨⟨sku, db1⟩, hg, h⟩
      have hr1 := getSku_preserves_resolved hg hr
      have hr2 : skuResolved { db1 with items := db1.items ++
          [{ order_id := oid, size_code := sku.size_code, fabric_name := sku.fabric_name,
             print_name := sku.print_name, qty := it.qty,
             unit_price := it.unit_price.getD sku.unit_price,
             line_total := it.unit_price.getD sku.unit_price * (it.qty : ℚ) }] }
          sc fn pn t := by
        unfold skuResolved at hr1 ⊢
        rwa [findSku_congr rfl]
      exact ih _ _ _ _ h hr2

/-- The line item created by one pass of the `_seed_orders` item loop
(definitionally the record built inside `buildItems`). -/
def mkOrderItem (oid : Nat) (sku : ProductSKU) (it : OrderItemRow) : OrderItem :=
  { order_id := oid, size_code := sku.size_code, fabric_name := sku.fabric_name,
    print_name := sku.print_name, qty := it.qty,
    unit_price := it.unit_price.getD sku.unit_price,
    line_total := it.unit_price.getD sku.unit_price * (it.qty : ℚ) }

theorem buildItems_rerun {oid : Nat} :
    ∀ (rows : List OrderItemRow) (db : DB) (st : ℚ) (db' : DB) (st' : ℚ),
    buildItems oid db st rows = .ok (db', st') →
    ∀ (db2 : DB) (st2 : ℚ),
      db2.skus = db'.skus → db2.sizes = db'.sizes → db2.fabrics = db'.fabrics →
      db2.prints = db'.prints →
    ∃ new : List OrderItem,
      db'.items = db.items ++ new ∧
      buildItems oid db2 st2 rows =
        .ok ({ db2 with items := db2.items ++ new }, st2 + (st' - st)) := by
  intro rows
  induction rows with
  | nil =>
      intro db st db' st' h db2 st2 hsk hsz hfb hpr
      unfold buildItems at h
      have h2 : Except.ok (ε := SeedError) (db, st) = .ok (db', st') := h
      injection h2 with h3
      injection h3 with h4 h5
      subst h4; subst h5
      refine ⟨[], by simp, ?_⟩
      unfold buildItems
      simp
  | cons it rest ih =>
      intro db st db' st' h db2 st2 hsk hsz hfb hpr
      unfold buildItems at h
      rcases except_bind_ok h with ⟨⟨sku, db1⟩, hg, h⟩
      rcases buildItems_spec rest _ _ _ _ h with ⟨-, -, -, -, -, -, -, hsiz', hfab', hpr', -⟩
      rcases getSku_ok_eq hg with ⟨-, ⟨z, hz⟩, ⟨f, hf⟩, ⟨po, hp⟩⟩
      rcases getSku_ok_shape hg with ⟨l, hl⟩
      subst hl
      have hres1 := getSku_resolved_self hg
      have hresMid : skuResolved
          { db with
            skus := l,
            items := db.items ++ [mkOrderItem oid sku it] }
          it.size_code it.fabric_type it.print_pattern sku := by
        unfold skuResolved at hres1 ⊢
        rwa [findSku_congr rfl]
      have hres' := buildItems_preserves_resolved rest _ _ _ _ h hresMid
      have hres2 : skuResolved db2 it.size_code it.fabric_type it.print_pattern sku := by
        unfold skuResolved at hres' ⊢
        rwa [findSku_congr hsk]
      have hsz2 : db2.sizes = db.sizes := by rw [hsz, hsiz']
      have hfb2 : db2.fabrics = db.fabrics := by rw [hfb, hfab']
      have hpr2 : db2.prints = db.prints := by rw [hpr, hpr']
      have hz2 : getSize db2 it.size_code = .ok z := by rw [getSize_congr hsz2]; exact hz
      have hf2 : getFabric db2 it.fabric_type = .ok f := by rw [getFabric_congr hfb2]; exact hf
      have hp2 : getPrint db2 it.print_pattern = .ok po := by rw [getPrint_congr hpr2]; exact hp
      have hg2 := getSku_of_resolved hres2 hz2 hf2 hp2
      rcases ih _ _ _ _ h { db2 with items := db2.items ++ [mkOrderItem oid sku it] }
        (st2 + it.unit_price.getD sku.unit_price * (it.qty : ℚ)) hsk hsz hfb hpr
        with ⟨new', hit', hrun2⟩
      refine ⟨mkOrderItem oid sku it :: new', ?_, ?_⟩
      · rw [hit']; simp [mkOrderItem]
      · have hstep : buildItems oid db2 st2 (it :: rest) =
            buildItems oid { db2 with items := db2.items ++ [mkOrderItem oid sku it] }
              (st2 + it.unit_price.getD sku.unit_price * (it.qty : ℚ)) rest := by
          rw [buildItems]
          exact except_bind_error hg2
        rw [hstep, hrun2]
        have hstq : st2 + it.unit_price.getD sku.unit_price * (it.qty : ℚ) +
            (st' - (st + it.unit_price.getD sku.unit_price * (it.qty : ℚ))) =
            st2 + (st' - st) := by ring
        have hitq : (db2.items ++ [mkOrderItem oid sku it]) ++ new' =
            db2.items ++ (mkOrderItem oid sku it :: new') := by simp
        rw [hstq, hitq]

/-- The fresh order created when no (customer, date, notes) match exists
(definitionally the record built inside `seedOrderRowCore`). -/
def freshOrder (db : DB) (row : OrderRow) (cust : Customer) (stat : OrderStatus) : Order :=
  { id := db.nextOrderId, customer := cust.full_name, status := stat.code,
    order_date := row.order_date, notes := row.notes.getD "",
    subtotal := 0, shipping_fee := row.shipping_fee.getD 0,
    discount := row.discount.getD 0, total := 0 }

/-- The header written back at the end of a build: subtotal from the item
loop, total from the header's stored shipping fee and discount. -/
def savedOrder (o : Order) (st : ℚ) : Order :=
  { o with subtotal := st, total := st + o.shipping_fee - o.discount }

/-- State after `order.items.all().delete()` for order id `oid`. -/
def clearedItems (db : DB) (oid : Nat) : DB :=
  { db with items := db.items.filter (fun x => x.order_id != oid) }

/-- State after `Order.objects.create(...)` of the fresh order. -/
def createdOrderDB (db : DB) (row : OrderRow) (cust : Customer) (stat : OrderStatus) : DB :=
  { db with orders := db.orders ++ [freshOrder db row cust stat],
            nextOrderId := db.nextOrderId + 1 }

/-- State after the final `order.save(...)` writes the recomputed header. -/
def savedOrderDB (db3 : DB) (o : Order) (st : ℚ) : DB :=
  { db3 with orders := replaceFirst (fun x => x.id == o.id) (savedOrder o st) db3.orders }

theorem seedOrderRowCore_cases {db db' : DB} {row : OrderRow} {oid : Nat}
    (h : seedOrderRowCore db row = .ok (db', oid)) :
    ∃ cust stat, getCustomer db row.customer = .ok cust ∧
      getStatus db row.status = .ok stat ∧
    ((∃ o db3 st,
        db.orders.find? (orderKeyMatches cust.full_name row.order_date (row.notes.getD ""))
          = some o ∧
        buildItems o.id (clearedItems db o.id) 0 row.items = .ok (db3, st) ∧
        oid = o.id ∧ db' = savedOrderDB db3 o st) ∨
     (∃ db3 st,
        db.orders.find? (orderKeyMatches cust.full_name row.order_date (row.notes.getD ""))
          = none ∧
        buildItems db.nextOrderId (clearedItems (createdOrderDB db row cust stat) db.nextOrderId)
          0 row.items = .ok (db3, st) ∧
        oid = db.nextOrderId ∧ db' = savedOrderDB db3 (freshOrder db row cust stat) st)) := by
  unfold seedOrderRowCore at h
  rcases except_bind_ok h with ⟨cust, hc, h⟩
  rcases except_bind_ok h with ⟨stat, hs, h⟩
  refine ⟨cust, stat, hc, hs, ?_⟩
  cases hfind : db.orders.find?
      (orderKeyMatches cust.full_name row.order_date (row.notes.getD "")) with
  | some o =>
      rw [hfind] at h
      rcases except_bind_ok h with ⟨⟨db3, st⟩, hb, h⟩
      have h2 : Except.ok (ε := SeedError) (savedOrderDB db3 o st, o.id) = .ok (db', oid) := h
      injection h2 with h3
      injection h3 with h4 h5
      exact Or.inl ⟨o, db3, st, rfl, hb, h5.symm, h4.symm⟩
  | none =>
      rw [hfind] at h
      rcases except_bind_ok h with ⟨⟨db3, st⟩, hb, h⟩
      have h2 : Except.ok (ε := SeedError)
          (savedOrderDB db3 (freshOrder db row cust stat) st, db.nextOrderId)
          = .ok (db', oid) := h
      injection h2 with h3
      injection h3 with h4 h5
      exact Or.inr ⟨db3, st, rfl, hb, h5.symm, h4.symm⟩


theorem filter_cleared_nil (l : List OrderItem) (oid : Nat) :
    (l.filter (fun x => x.order_id != oid)).filter (fun x => x.order_id == oid) = [] := by
  rw [List.filter_filter]
  apply List.filter_eq_nil_iff.mpr
  intro a ha
  simp [bne]

theorem filter_new_self {l : List OrderItem} {oid : Nat}
    (h : ∀ x ∈ l, x.order_id = oid) :
    l.filter (fun x => x.order_id == oid) = l := by
  apply List.filter_eq_self.mpr
  intro a ha
  simp [h a ha]

/-- Post-state of one order build: the saved header is the id-lookup result,
its subtotal is the sum of the (freshly recreated) items of the order, and
each item satisfies the line-total equation.  The header `o` is either the
first (customer, date, notes) match in the pre-state or the freshly created
order. -/
theorem seedOrderRowCore_post {db db' : DB} {row : OrderRow} {oid : Nat}
    (h : seedOrderRowCore db row = .ok (db', oid)) :
    ∃ cust stat o st,
      getCustomer db row.customer = .ok cust ∧ getStatus db row.status = .ok stat ∧
      (db.orders.find? (orderKeyMatches cust.full_name row.order_date (row.notes.getD ""))
          = some o ∨
        (db.orders.find? (orderKeyMatches cust.full_name row.order_date (row.notes.getD ""))
          = none ∧ o = freshOrder db row cust stat)) ∧
      oid = o.id ∧
      db'.orders.find? (fun x => x.id == oid) = some (savedOrder o st) ∧
      st = sumLineTotals (itemsOfOrder db' oid) ∧
      (∀ it ∈ itemsOfOrder db' oid,
        it.order_id = oid ∧ it.line_total = it.unit_price * (it.qty : ℚ)) := by
  rcases seedOrderRowCore_cases h with
    ⟨cust, stat, hc, hs, ⟨o, db3, st, hfind, hb, hoid, hdb⟩ |
      ⟨db3, st, hfind, hb, hoid, hdb⟩⟩
  · subst hoid
    subst hdb
    rcases buildItems_spec _ _ _ _ _ hb with ⟨new, hitems, hst, hprops, horders, -, -,
      -, -, -, -⟩
    have hmem : o ∈ db3.orders := by
      rw [horders]
      exact List.mem_of_find?_eq_some hfind
    have hpo : (fun (x : Order) => x.id == o.id) o = true := by simp
    rcases find?_isSome_of_mem (p := fun x => x.id == o.id) hmem hpo with ⟨a, hfa, hpa⟩
    have hitems' : itemsOfOrder (savedOrderDB db3 o st) o.id = new := by
      show db3.items.filter (fun x => x.order_id == o.id) = new
      rw [hitems, List.filter_append]
      rw [show (clearedItems db o.id).items
          = db.items.filter (fun x => x.order_id != o.id) from rfl]
      rw [filter_cleared_nil, filter_new_self (fun x hx => (hprops x hx).1)]
      simp
    refine ⟨cust, stat, o, st, hc, hs, Or.inl hfind, rfl, ?_, ?_, ?_⟩
    · show (replaceFirst (fun x => x.id == o.id) (savedOrder o st) db3.orders).find?
        (fun x => x.id == o.id) = some (savedOrder o st)
      exact find?_replaceFirst_same hfa hpa (by simp [savedOrder])
    · rw [hitems', hst]; ring
    · intro it hit
      rw [hitems'] at hit
      exact hprops it hit
  · subst hoid
    subst hdb
    rcases buildItems_spec _ _ _ _ _ hb with ⟨new, hitems, hst, hprops, horders, -, -,
      -, -, -, -⟩
    have hmem : freshOrder db row cust stat ∈ db3.orders := by
      rw [horders]
      show freshOrder db row cust stat ∈ db.orders ++ [freshOrder db row cust stat]
      exact List.mem_append_right _ (List.mem_singleton.mpr rfl)
    have hpo : (fun (x : Order) => x.id == db.nextOrderId) (freshOrder db row cust stat)
        = true := by simp [freshOrder]
    rcases find?_isSome_of_mem (p := fun x => x.id == db.nextOrderId) hmem hpo
      with ⟨a, hfa, hpa⟩
    have hitems' : itemsOfOrder
        (savedOrderDB db3 (freshOrder db row cust stat) st) db.nextOrderId = new := by
      show db3.items.filter (fun x => x.order_id == db.nextOrderId) = new
      rw [hitems, List.filter_append]
      rw [show (clearedItems (createdOrderDB db row cust stat) db.nextOrderId).items
          = db.items.filter (fun x => x.order_id != db.nextOrderId) from rfl]
      rw [filter_cleared_nil, filter_new_self (fun x hx => (hprops x hx).1)]
      simp
    refine ⟨cust, stat, freshOrder db row cust stat, st, hc, hs, Or.inr ⟨hfind, rfl⟩,
      rfl, ?_, ?_, ?_⟩
    · show (replaceFirst (fun x => x.id == db.nextOrderId)
        (savedOrder (freshOrder db row cust stat) st) db3.orders).find?
        (fun x => x.id == db.nextOrderId) = some (savedOrder (freshOrder db row cust stat) st)
      exact find?_replaceFirst_same hfa hpa (by simp [savedOrder, freshOrder])
    · rw [hitems', hst]; ring
    · intro it hit
      rw [hitems'] at hit
      exact hprops it hit


theorem seedOrderRowCore_eq {db : DB} {row : OrderRow} {cust : Customer}
    {stat : OrderStatus} {o : Order} {db3 : DB} {st : ℚ}
    (hc : getCustomer db row.customer = .ok cust)
    (hs : getStatus db row.status = .ok stat)
    (hfind : db.orders.find?
      (orderKeyMatches cust.full_name row.order_date (row.notes.getD "")) = some o)
    (hb : buildItems o.id (clearedItems db o.id) 0 row.items = .ok (db3, st)) :
    seedOrderRowCore db row = .ok (savedOrderDB db3 o st, o.id) := by
  unfold seedOrderRowCore
  rw [except_bind_error hc, except_bind_error hs, hfind]
  show buildItems o.id (clearedItems db o.id) 0 row.items >>= _ = _
  rw [except_bind_error hb]
  rfl


theorem orderKeyMatches_iff {c d n : String} {o : Order} :
    orderKeyMatches c d n o = true ↔ (o.customer = c ∧ o.order_date = d ∧ o.notes = n) := by
  simp [orderKeyMatches, and_assoc]

/-- C2: building the same order record twice yields the same final set of
line items for the resolved order as building it once, because all existing
line items are deleted before the requested ones are recreated. -/
theorem C2_items_rerun_idempotent {db db1 : DB} {row : OrderRow} {oid : Nat}
    (h : seedOrderRowCore db row = .ok (db1, oid)) :
    ∃ db2, seedOrderRowCore db1 row = .ok (db2, oid) ∧
      itemsOfOrder db2 oid = itemsOfOrder db1 oid := by
  rcases seedOrderRowCore_cases h with
    ⟨cust, stat, hc, hs, ⟨o, db3, st, hfind, hb, hoid, hdb⟩ |
      ⟨db3, st, hfind, hb, hoid, hdb⟩⟩
  · subst hoid; subst hdb
    rcases buildItems_spec _ _ _ _ _ hb with ⟨new, hitems, hst, hprops, horders, hcusts,
      hstats, -, -, -, -⟩
    have hc2 : getCustomer (savedOrderDB db3 o st) row.customer = .ok cust := by
      rw [getCustomer_congr (show (savedOrderDB db3 o st).customers = db.customers
        from hcusts)]
      exact hc
    have hs2 : getStatus (savedOrderDB db3 o st) row.status = .ok stat := by
      rw [getStatus_congr (show (savedOrderDB db3 o st).statuses = db.statuses
        from hstats)]
      exact hs
    have hfind3 : db3.orders.find?
        (orderKeyMatches cust.full_name row.order_date (row.notes.getD "")) = some o := by
      rw [horders]; exact hfind
    have hKo : orderKeyMatches cust.full_name row.order_date (row.notes.getD "") o = true :=
      List.find?_some hfind
    have hKsaved : orderKeyMatches cust.full_name row.order_date (row.notes.getD "")
        (savedOrder o st) = true := hKo
    have hpo : (fun (x : Order) => x.id == o.id) o = true := by simp
    have hfind2 : (savedOrderDB db3 o st).orders.find?
        (orderKeyMatches cust.full_name row.order_date (row.notes.getD ""))
        = some (savedOrder o st) := by
      show (replaceFirst (fun x => x.id == o.id) (savedOrder o st) db3.orders).find? _ = _
      exact find?_replaceFirst_same hfind3 hpo hKsaved
    rcases buildItems_rerun row.items (clearedItems db o.id) 0 db3 st hb
      (clearedItems (savedOrderDB db3 o st) o.id) 0 rfl rfl rfl rfl
      with ⟨new2, hit2, hrun2⟩
    have hnew2 : new2 = new :=
      List.append_cancel_left ((hit2.symm).trans hitems)
    refine ⟨_, seedOrderRowCore_eq (o := savedOrder o st) hc2 hs2 hfind2 hrun2, ?_⟩
    have hlhs : itemsOfOrder (savedOrderDB
        { clearedItems (savedOrderDB db3 o st) o.id with
          items := (clearedItems (savedOrderDB db3 o st) o.id).items ++ new2 }
        (savedOrder o st) (0 + (st - 0))) o.id = new := by
      show ((db3.items.filter (fun x => x.order_id != o.id)) ++ new2).filter
        (fun x => x.order_id == o.id) = new
      rw [List.filter_append, filter_cleared_nil, hnew2,
        filter_new_self (fun x hx => (hprops x hx).1)]
      simp
    have hrhs : itemsOfOrder (savedOrderDB db3 o st) o.id = new := by
      show db3.items.filter (fun x => x.order_id == o.id) = new
      rw [hitems]
      show ((db.items.filter (fun x => x.order_id != o.id)) ++ new).filter
          (fun x => x.order_id == o.id) = new
      rw [List.filter_append, filter_cleared_nil,
        filter_new_self (fun x hx => (hprops x hx).1)]
      simp
    exact hlhs.trans hrhs.symm
  · subst hoid; subst hdb
    rcases buildItems_spec _ _ _ _ _ hb with ⟨new, hitems, hst, hprops, horders, hcusts,
      hstats, -, -, -, -⟩
    have hc2 : getCustomer (savedOrderDB db3 (freshOrder db row cust stat) st)
        row.customer = .ok cust := by
      rw [getCustomer_congr (show (savedOrderDB db3 (freshOrder db row cust stat) st).customers
        = db.customers from hcusts)]
      exact hc
    have hs2 : getStatus (savedOrderDB db3 (freshOrder db row cust stat) st)
        row.status = .ok stat := by
      rw [getStatus_congr (show (savedOrderDB db3 (freshOrder db row cust stat) st).statuses
        = db.statuses from hstats)]
      exact hs
    have hKo : orderKeyMatches cust.full_name row.order_date (row.notes.getD "")
        (freshOrder db row cust stat) = true := by
      simp [orderKeyMatches, freshOrder]
    have hfind3 : db3.orders.find?
        (orderKeyMatches cust.full_name row.order_date (row.notes.getD ""))
        = some (freshOrder db row cust stat) := by
      rw [horders]
      show (db.orders ++ [freshOrder db row cust stat]).find? _ = _
      rw [find?_append_of_none hfind, List.find?_cons_of_pos _ hKo]
    have hKsaved : orderKeyMatches cust.full_name row.order_date (row.notes.getD "")
        (savedOrder (freshOrder db row cust stat) st) = true := hKo
    have hpo : (fun (x : Order) => x.id == (freshOrder db row cust stat).id)
        (freshOrder db row cust stat) = true := by simp
    have hfind2 : (savedOrderDB db3 (freshOrder db row cust stat) st).orders.find?
        (orderKeyMatches cust.full_name row.order_date (row.notes.getD ""))
        = some (savedOrder (freshOrder db row cust stat) st) := by
      show (replaceFirst (fun x => x.id == (freshOrder db row cust stat).id)
        (savedOrder (freshOrder db row cust stat) st) db3.orders).find? _ = _
      exact find?_replaceFirst_same hfind3 hpo hKsaved
    rcases buildItems_rerun row.items
      (clearedItems (createdOrderDB db row cust stat) db.nextOrderId) 0 db3 st hb
      (clearedItems (savedOrderDB db3 (freshOrder db row cust stat) st) db.nextOrderId) 0
      rfl rfl rfl rfl with ⟨new2, hit2, hrun2⟩
    have hnew2 : new2 = new :=
      List.append_cancel_left ((hit2.symm).trans hitems)
    refine ⟨_, seedOrderRowCore_eq (o := savedOrder (freshOrder db row cust stat) st)
      hc2 hs2 hfind2 hrun2, ?_⟩
    have hlhs : itemsOfOrder (savedOrderDB
        { clearedItems (savedOrderDB db3 (freshOrder db row cust stat) st) db.nextOrderId with
          items := (clearedItems (savedOrderDB db3 (freshOrder db row cust stat) st)
            db.nextOrderId).items ++ new2 }
        (savedOrder (freshOrder db row cust stat) st) (0 + (st - 0))) db.nextOrderId
        = new := by
      show ((db3.items.filter (fun x => x.order_id != db.nextOrderId)) ++ new2).filter
        (fun x => x.order_id == db.nextOrderId) = new
      rw [List.filter_append, filter_cleared_nil, hnew2,
        filter_new_self (fun x hx => (hprops x hx).1)]
      simp
    have hrhs : itemsOfOrder (savedOrderDB db3 (freshOrder db row cust stat) st)
        db.nextOrderId = new := by
      show db3.items.filter (fun x => x.order_id == db.nextOrderId) = new
      rw [hitems]
      show ((db.items.filter (fun x => x.order_id != db.nextOrderId)) ++ new).filter
          (fun x => x.order_id == db.nextOrderId) = new
      rw [List.filter_append, filter_cleared_nil,
        filter_new_self (fun x hx => (hprops x hx).1)]
      simp
    exact hlhs.trans hrhs.symm

/-- C1: for every order processed by the order builder, after the build
completes the saved order's `total` equals `subtotal + shipping_fee -
discount`, its `subtotal` equals the sum of `line_total` over its line
items, and every line item's `line_total` equals `unit_price * qty`. -/
theorem C1_order_total_invariant {db db' : DB} {row : OrderRow} {oid : Nat}
    (h : seedOrderRowCore db row = .ok (db', oid)) :
    ∃ o', db'.orders.find? (fun x => x.id == oid) = some o' ∧
      o'.total = o'.subtotal + o'.shipping_fee - o'.discount ∧
      o'.subtotal = sumLineTotals (itemsOfOrder db' oid) ∧
      ∀ it ∈ itemsOfOrder db' oid, it.line_total = it.unit_price * (it.qty : ℚ) := by
  rcases seedOrderRowCore_post h with ⟨cust, stat, o, st, -, -, -, hoid, hfq, hst, hprops⟩
  refine ⟨savedOrder o st, hfq, ?_, ?_, fun it hit => (hprops it hit).2⟩
  · show st + o.shipping_fee - o.discount = st + o.shipping_fee - o.discount
    rfl
  · exact hst

/-- C8: when an existing order matches the (customer, order_date, notes)
identity key, a rebuild leaves its status, shipping fee and discount at the
stored values regardless of the request, and the new total is computed from
the stored shipping fee and discount. -/
theorem C8_existing_header_preserved {db db' : DB} {row : OrderRow} {oid : Nat}
    {cust : Customer} {o : Order}
    (hc : getCustomer db row.customer = .ok cust)
    (hfind : db.orders.find?
      (orderKeyMatches cust.full_name row.order_date (row.notes.getD "")) = some o)
    (h : seedOrderRowCore db row = .ok (db', oid)) :
    oid = o.id ∧
    ∃ o', db'.orders.find? (fun x => x.id == oid) = some o' ∧
      o'.status = o.status ∧ o'.shipping_fee = o.shipping_fee ∧
      o'.discount = o.discount ∧
      o'.total = o'.subtotal + o.shipping_fee - o.discount := by
  rcases seedOrderRowCore_post h with
    ⟨cust', stat, o'', st, hc', -, hbranch, hoid, hfq, hst, hprops⟩
  rw [hc] at hc'
  injection hc' with hceq
  subst hceq
  have ho : o'' = o := by
    rcases hbranch with hfind' | ⟨hnone, -⟩
    · rw [hfind] at hfind'
      injection hfind' with hv
      exact hv.symm
    · rw [hfind] at hnone
      cases hnone
  subst ho
  refine ⟨hoid, savedOrder o'' st, hfq, rfl, rfl, rfl, ?_⟩
  show st + o''.shipping_fee - o''.discount = st + o''.shipping_fee - o''.discount
  rfl


/-- C3: a SKU with a non-blank code is returned unaltered by a resolve of its
triple (store untouched), a blank code is backfilled in place by the seed
deriver, the resolved SKU always carries a non-blank code, a model-layer
`save` never alters a non-blank code, and a second resolve of the same
triple alters nothing (so a blank code is backfilled exactly once). -/
theorem C3_sku_code_stability {db db' : DB} {sc fn : String} {pn : Option String}
    {s : ProductSKU}
    (h : getSku db sc fn pn = .ok (s, db')) :
    (∀ s₀, findSku db sc fn pn = some s₀ → s₀.sku_code ≠ "" → s = s₀ ∧ db' = db) ∧
    (∀ s₀, findSku db sc fn pn = some s₀ → s₀.sku_code = "" →
      s = { s₀ with sku_code := buildSkuCodeSeed sc fn pn }) ∧
    s.sku_code ≠ "" ∧
    productSKUSave s = s ∧
    getSku db' sc fn pn = .ok (s, db') := by
  rcases getSku_ok_eq h with ⟨he, ⟨z, hz⟩, ⟨f, hf⟩, ⟨po, hp⟩⟩
  have hcode : s.sku_code ≠ "" := by
    have := skuFor_code_ne_blank db sc fn pn
    rwa [he] at this
  refine ⟨?_, ?_, hcode, ?_, ?_⟩
  · intro s₀ hf0 hc0
    have h2 := skuFor_of_resolved hf0 hc0
    rw [he] at h2
    injection h2 with h3 h4
    exact ⟨h3, h4⟩
  · intro s₀ hf0 hc0
    rcases skuFor_cases db sc fn pn with ⟨hn, -⟩ | ⟨t, ht, hcn, hcase⟩ | ⟨t, ht, -, hcase⟩
    · rw [hf0] at hn; cases hn
    · rw [hf0] at ht
      injection ht with ht2
      subst ht2
      exact absurd hc0 hcn
    · rw [hf0] at ht
      injection ht with ht2
      subst ht2
      rw [he] at hcase
      exact congrArg Prod.fst hcase
  · unfold productSKUSave
    rw [if_neg hcode]
  · rcases getSku_ok_shape h with ⟨l, hl⟩
    subst hl
    have hres := getSku_resolved_self h
    have hz' : getSize { db with skus := l } sc = .ok z := by
      rw [getSize_congr rfl]; exact hz
    have hf' : getFabric { db with skus := l } fn = .ok f := by
      rw [getFabric_congr rfl]; exact hf
    have hp' : getPrint { db with skus := l } pn = .ok po := by
      rw [getPrint_congr rfl]; exact hp
    exact getSku_of_resolved hres hz' hf' hp'

/-- C6 (amended): the resolver overwrites `unit_price` and `is_active` only
when the record supplies a non-null `unit_price`; then `is_active` is set to
the supplied flag (default true).  When `unit_price` is absent or null the
stored price and flag are left untouched (a freshly created SKU keeps the
creation defaults: price 0, active). -/
theorem C6_price_overwrite_amended {db db' : DB} {row : SkuRow}
    (h : seedSkuRow db row = .ok db') :
    ∃ s, findSku db' row.size_code row.fabric_type row.print_pattern = some s ∧
      (∀ p, row.unit_price = some p →
        s.unit_price = p ∧ s.is_active = row.is_active.getD true) ∧
      (row.unit_price = none →
        (∀ s₀, findSku db row.size_code row.fabric_type row.print_pattern = some s₀ →
          s.unit_price = s₀.unit_price ∧ s.is_active = s₀.is_active) ∧
        (findSku db row.size_code row.fabric_type row.print_pattern = none →
          s.unit_price = 0 ∧ s.is_active = true)) := by
  unfold seedSkuRow at h
  rcases except_bind_ok h with ⟨⟨sku, db1⟩, hg, h⟩
  rcases getSku_ok_eq hg with ⟨he, -, -, -⟩
  have hres := getSku_resolved_self hg
  have hk := skuFor_key db row.size_code row.fabric_type row.print_pattern
  rw [he] at hk
  revert h
  cases hup : row.unit_price with
  | none =>
      intro h
      have h2 : Except.ok (ε := SeedError) db1 = .ok db' := h
      injection h2 with h3
      subst h3
      refine ⟨sku, hres.1, ?_, ?_⟩
      · intro p hp; cases hp
      · intro _
        constructor
        · intro s₀ hf0
          rcases skuFor_cases db row.size_code row.fabric_type row.print_pattern with
            ⟨hn, -⟩ | ⟨t, ht, -, hcase⟩ | ⟨t, ht, -, hcase⟩
          · rw [hf0] at hn; cases hn
          · rw [hf0] at ht
            injection ht with ht2
            subst ht2
            rw [he] at hcase
            injection hcase with h3 h4
            rw [h3]
            exact ⟨rfl, rfl⟩
          · rw [hf0] at ht
            injection ht with ht2
            subst ht2
            rw [he] at hcase
            injection hcase with h3 h4
            rw [h3]
            exact ⟨rfl, rfl⟩
        · intro hnone
          rcases skuFor_cases db row.size_code row.fabric_type row.print_pattern with
            ⟨-, hcase⟩ | ⟨t, ht, -, -⟩ | ⟨t, ht, -, -⟩
          · rw [he] at hcase
            injection hcase with h3 h4
            rw [h3]
            exact ⟨rfl, rfl⟩
          · rw [hnone] at ht; cases ht
          · rw [hnone] at ht; cases ht
  | some p =>
      intro h
      have h2 : Except.ok (ε := SeedError) { db1 with skus := replaceFirst (skuMatches sku.size_code sku.fabric_name sku.print_name) { sku with unit_price := p, is_active := row.is_active.getD true } db1.skus } = .ok db' := h
      injection h2 with h3
      subst h3
      have hpa : skuMatches sku.size_code sku.fabric_name sku.print_name sku = true := by
        simp [skuMatches]
      have hqb : skuMatches sku.size_code sku.fabric_name sku.print_name
          { sku with unit_price := p, is_active := row.is_active.getD true } = true := by
        simp [skuMatches]
      have hq : findSku db1 sku.size_code sku.fabric_name sku.print_name = some sku := by
        rw [hk.1, hk.2.1, hk.2.2]
        exact hres.1
      refine ⟨{ sku with unit_price := p, is_active := row.is_active.getD true }, ?_, ?_, ?_⟩
      · show (replaceFirst (skuMatches sku.size_code sku.fabric_name sku.print_name) _
          db1.skus).find? (skuMatches row.size_code row.fabric_type row.print_pattern)
          = _
        rw [← hk.1, ← hk.2.1, ← hk.2.2]
        exact find?_replaceFirst_same hq hpa hqb
      · intro p' hp'
        injection hp' with hp2
        subst hp2
        exact ⟨rfl, rfl⟩
      · intro hnone
        cases hnone

/-! ## Character-level facts for the code derivers -/

theorem char_toNat_ofNat_valid {n : Nat} (h : n.isValidChar) : (Char.ofNat n).toNat = n := by
  unfold Char.ofNat
  rw [dif_pos h]
  unfold Char.ofNatAux Char.toNat
  show (UInt32.mk (BitVec.ofNatLt n _)).toNat = n
  simp [UInt32.toNat, BitVec.toNat_ofNatLt]

theorem toUpper_eq_space_iff (c : Char) : Char.toUpper c = ' ' ↔ c = ' ' := by
  unfold Char.toUpper
  by_cases hl : c.toNat ≥ 97 ∧ c.toNat ≤ 122
  · rw [if_pos hl]
    constructor
    · intro he
      exfalso
      have hv : (Char.ofNat (c.toNat - 32)).toNat = (' ' : Char).toNat := by rw [he]
      rw [char_toNat_ofNat_valid (by left; omega)] at hv
      have h32 : (' ' : Char).toNat = 32 := rfl
      omega
    · intro he
      subst he
      exfalso
      have h32 : (' ' : Char).toNat = 32 := rfl
      omega
  · rw [if_neg hl]

theorem filter_space_map_toUpper (l : List Char) :
    (l.map Char.toUpper).filter (fun c => c != ' ') =
      (l.filter (fun c => c != ' ')).map Char.toUpper := by
  induction l with
  | nil => rfl
  | cons c rest ih =>
      by_cases hc : c = ' '
      · subst hc
        have h1 : Char.toUpper ' ' = ' ' := rfl
        simp only [List.map_cons, h1, List.filter_cons]
        simp [ih]
      · have h2 : Char.toUpper c ≠ ' ' := fun he => hc ((toUpper_eq_space_iff c).mp he)
        simp only [List.map_cons, List.filter_cons]
        simp [hc, h2, ih]

/-- The normalization the seed-side deriver actually performs, phrased
independently (spaces dropped first, then uppercased, then truncated): strip
surrounding whitespace, remove the space characters, uppercase, keep the
first `k` characters.  Punctuation such as hyphens is retained. -/
def seedNormalize (k : Nat) (s : String) : String :=
  String.mk ((((pyStripChars s.data).filter (fun c => c != ' ')).map Char.toUpper).take k)

/-- The normalization asserted by the spec sentence of C4: uppercase
identifier with ALL non-alphanumeric characters stripped, truncated. -/
def specNormalize (k : Nat) (s : String) : String :=
  String.mk (((s.data.filter Char.isAlphanum).map Char.toUpper).take k)


/-- C4 (amended): the seed-side SKU code deriver returns
`BAG-<SIZE>-<FABRIC>-<PRINT>` where `<FABRIC>` is the fabric name with
surrounding whitespace stripped, space characters (only) removed,
uppercased and truncated to 10 characters — other non-alphanumeric
characters such as hyphens are retained — and `<PRINT>` is `PLAIN` for no
pattern, else the pattern name normalized the same way truncated to 12. -/
theorem C4_sku_code_shape_amended (sc fn : String) (pn : Option String) :
    buildSkuCodeSeed sc fn pn =
      "BAG-" ++ String.mk (pyUpper sc.data) ++ "-" ++ seedNormalize 10 fn ++ "-" ++
        (match pn with | none => "PLAIN" | some n => seedNormalize 12 n) := by
  cases pn with
  | none =>
      simp only [buildSkuCodeSeed, seedNormalize]
      rw [filter_space_map_toUpper]
      rfl
  | some n =>
      simp only [buildSkuCodeSeed, seedNormalize]
      rw [filter_space_map_toUpper, filter_space_map_toUpper (pyStripChars n.data)]
      rfl

/-- C4 counterexample: for fabric name `"A-B"` the seed deriver keeps the
hyphen, and for fabric name `"a_b"` the model deriver keeps the underscore,
so neither strips all non-alphanumeric characters as the claim asserts. -/
theorem C4_counterexample :
    buildSkuCodeSeed "STD" "A-B" none = "BAG-STD-A-B-PLAIN" ∧
    buildSkuCodeModel "STD" "a_b" none = "BAG-STD-A_B-PLAIN" ∧
    specNormalize 10 "A-B" = "AB" ∧
    specNormalize 10 "a_b" = "AB" ∧
    buildSkuCodeSeed "STD" "A-B" none ≠
      "BAG-" ++ String.mk (pyUpper "STD".data) ++ "-" ++ specNormalize 10 "A-B" ++
        "-" ++ "PLAIN" ∧
    buildSkuCodeModel "STD" "a_b" none ≠
      "BAG-" ++ String.mk (pyUpper "STD".data) ++ "-" ++ specNormalize 10 "a_b" ++
        "-" ++ "PLAIN" := by
  refine ⟨by decide, by decide, by decide, by decide, by decide, by decide⟩

/-- C5: the deriver maps (size `"STD"`, fabric `"Cotton Blend"`, no pattern)
to exactly `"BAG-STD-COTTONBLEN-PLAIN"`; this holds for both the seeding
command's deriver and the model module's slugify-based deriver. -/
theorem C5_derivation_example :
    buildSkuCodeSeed "STD" "Cotton Blend" none = "BAG-STD-COTTONBLEN-PLAIN" ∧
    buildSkuCodeModel "STD" "Cotton Blend" none = "BAG-STD-COTTONBLEN-PLAIN" := by
  refine ⟨by decide, by decide⟩


/-! ## Fabric-material invariant machinery -/

theorem upsertBy_ok_mem {t k : String} {p : α → Bool} {upd : α → α} {mk : α}
    {l l' : List α} (h : upsertBy t k p upd mk l = .ok l') :
    ∀ x ∈ l', x ∈ l ∨ (∃ a ∈ l, x = upd a) ∨ x = mk := by
  unfold upsertBy at h
  cases hf : l.filter p with
  | nil =>
      rw [hf] at h
      injection h with h2
      subst h2
      intro x hx
      rcases List.mem_append.mp hx with hx | hx
      · exact Or.inl hx
      · exact Or.inr (Or.inr (List.mem_singleton.mp hx))
  | cons a tl =>
      cases tl with
      | nil =>
          rw [hf] at h
          injection h with h2
          subst h2
          intro x hx
          rcases mem_replaceFirst hx with hx | hx
          · have ha : a ∈ l.filter p := by rw [hf]; exact List.mem_cons_self _ _
            exact Or.inr (Or.inl ⟨a, (List.mem_filter.mp ha).1, hx⟩)
          · exact Or.inl hx
      | cons b tl2 => rw [hf] at h; cases h

theorem foldlM_preserves {ρ : Type} {P : DB → Prop} {f : DB → ρ → Except SeedError DB}
    (hf : ∀ db row db', P db → f db row = .ok db' → P db') :
    ∀ (rows : List ρ) (db db' : DB), P db → rows.foldlM f db = .ok db' → P db' := by
  intro rows
  induction rows with
  | nil =>
      intro db db' hP h
      unfold List.foldlM at h
      have h2 : Except.ok (ε := SeedError) db = .ok db' := h
      injection h2 with h3
      subst h3
      exact hP
  | cons r rest ih =>
      intro db db' hP h
      unfold List.foldlM at h
      rcases except_bind_ok h with ⟨db1, h1, h⟩
      exact ih db1 db' (hf db r db1 hP h1) h

/-- Raw materials never carry a pattern (the first half of the spec's
fabric-material invariant). -/
def rawMaterialsOk (db : DB) : Prop :=
  ∀ m ∈ db.materials, m.is_printed = false → m.print_name = none

theorem materialKeyOf_raw (fn uom : String) (pattern : Option PrintPattern) :
    (materialKeyOf fn uom false pattern).print_name = none := rfl

theorem seedFabricMaterialRow_raw {db db' : DB} {row : FabricMaterialRow}
    (hP : rawMaterialsOk db) (h : seedFabricMaterialRow db row = .ok db') :
    rawMaterialsOk db' := by
  unfold seedFabricMaterialRow at h
  rcases except_bind_ok h with ⟨fab, hfab, h⟩
  rcases except_bind_ok h with ⟨pat, hpat, h⟩
  rcases except_bind_ok h with ⟨mats, hup, h⟩
  have h2 : Except.ok (ε := SeedError) { db with materials := mats } = .ok db' := h
  injection h2 with h3
  subst h3
  intro m hm hmf
  rcases upsertBy_ok_mem hup m hm with hx | ⟨a, ha, hxa⟩ | hx
  · exact hP m hx hmf
  · rw [hxa] at hmf ⊢
    exact hP a ha hmf
  · subst hx
    have hmf' : row.is_printed.getD false = false := hmf
    show (if row.is_printed.getD false = true then pat.map (fun p => p.name) else none) = none
    rw [hmf']
    simp

theorem seedFabricInventoryRow_raw {db db' : DB} {row : FabricInventoryRow}
    (hP : rawMaterialsOk db) (h : seedFabricInventoryRow db row = .ok db') :
    rawMaterialsOk db' := by
  unfold seedFabricInventoryRow at h
  rcases except_bind_ok h with ⟨fab, hfab, h⟩
  rcases except_bind_ok h with ⟨pat, hpat, h⟩
  cases hfm : db.materials.find? (fun m => m == materialKeyOf fab.name (row.uom.getD "meter")
      (row.is_printed.getD false) pat) with
  | some mfound =>
      rw [hfm] at h
      rcases except_bind_ok h with ⟨loc, hloc, h⟩
      rcases except_bind_ok h with ⟨stocks, hup, h⟩
      have h2 : Except.ok (ε := SeedError)
          { db with materials := db.materials, fabricStocks := stocks } = .ok db' := h
      injection h2 with h3
      subst h3
      intro m hm hmf
      exact hP m hm hmf
  | none =>
      rw [hfm] at h
      rcases except_bind_ok h with ⟨loc, hloc, h⟩
      rcases except_bind_ok h with ⟨stocks, hup, h⟩
      have h2 : Except.ok (ε := SeedError)
          { db with materials := db.materials ++ [materialKeyOf fab.name (row.uom.getD "meter") (row.is_printed.getD false) pat], fabricStocks := stocks } = .ok db' := h
      injection h2 with h3
      subst h3
      intro m hm hmf
      rcases List.mem_append.mp hm with hx | hx
      · exact hP m hx hmf
      · have hx2 := List.mem_singleton.mp hx
        subst hx2
        have hmf' : row.is_printed.getD false = false := hmf
        show (if row.is_printed.getD false = true then pat.map (fun p => p.name) else none)
          = none
        rw [hmf']
        simp

theorem seedFabrics_raw {db db' : DB} {data : SeedData}
    (hP : rawMaterialsOk db) (h : seedFabrics db data = .ok db') :
    rawMaterialsOk db' := by
  unfold seedFabrics at h
  rcases except_bind_ok h with ⟨db1, h1, h2⟩
  exact foldlM_preserves (fun a r a' => seedFabricInventoryRow_raw) _ db1 db'
    (foldlM_preserves (fun a r a' => seedFabricMaterialRow_raw) _ db db1 hP h1) h2


/-- C7 (amended): after any run of the fabric-material and fabric-inventory
seeding steps on a store whose raw materials carry no pattern, still no
stored fabric material has `is_printed = false` together with a non-null
print pattern; and the assembled lookup key forces a supplied pattern to
none whenever the printed flag is false.  (The other half of the original
claim — printed implies non-null pattern — fails; see the counterexample.) -/
theorem C7_raw_material_invariant_amended {db db' : DB} {data : SeedData}
    (hP : rawMaterialsOk db) (h : seedFabrics db data = .ok db') :
    rawMaterialsOk db' ∧
    ∀ fn uom (pattern : Option PrintPattern),
      (materialKeyOf fn uom false pattern).print_name = none :=
  ⟨seedFabrics_raw hP h, fun _ _ _ => rfl⟩

theorem except_bind_fail {α β : Type} {x : Except SeedError α} {f : α → Except SeedError β}
    {e : SeedError} (hx : x = .error e) : x >>= f = .error e := by
  rw [hx]; rfl

/-- C9: when the transaction body fails, the persisted state is exactly the
pre-run state (full rollback, no partial writes), and the run has no
success outcome (the error is surfaced to the caller, not caught). -/
theorem C9_rollback_on_error {db : DB} {data : SeedData} {e : SeedError}
    (h : seedAll db data = .error e) :
    persistedState db data = db ∧ ∀ db2, ¬ seedAll db data = .ok db2 := by
  constructor
  · unfold persistedState
    rw [h]
  · intro db2 h2
    rw [h] at h2
    cases h2

/-- C10: in both fabric seeding steps the supplied pattern name is resolved
before the printed flag is consulted, so a record with `is_printed = false`
and an unknown pattern name fails the run with the pattern's NotFound error
even though the pattern would subsequently be discarded. -/
theorem C10_pattern_lookup_precedes_flag {db : DB} {rowM : FabricMaterialRow}
    {rowI : FabricInventoryRow} {pm pi : String} {f g : FabricType}
    (hfM : getFabric db rowM.fabric_type = .ok f)
    (hpM : rowM.print_pattern = some pm)
    (hunkM : db.prints.filter (fun p => p.name == pm) = [])
    (hflagM : rowM.is_printed.getD false = false)
    (hfI : getFabric db rowI.fabric_type = .ok g)
    (hpI : rowI.print_pattern = some pi)
    (hunkI : db.prints.filter (fun p => p.name == pi) = [])
    (hflagI : rowI.is_printed.getD false = false) :
    seedFabricMaterialRow db rowM = .error (.notFound "PrintPattern" pm) ∧
    seedFabricInventoryRow db rowI = .error (.notFound "PrintPattern" pi) := by
  have hgetM : getPrint db rowM.print_pattern = .error (.notFound "PrintPattern" pm) := by
    rw [hpM]
    simp only [getPrint]
    unfold getUnique
    rw [hunkM]
    rfl
  have hgetI : getPrint db rowI.print_pattern = .error (.notFound "PrintPattern" pi) := by
    rw [hpI]
    simp only [getPrint]
    unfold getUnique
    rw [hunkI]
    rfl
  constructor
  · unfold seedFabricMaterialRow
    rw [except_bind_error hfM]
    exact except_bind_fail hgetM
  · unfold seedFabricInventoryRow
    rw [except_bind_error hfI]
    exact except_bind_fail hgetI


/-! ## Concrete fixtures for witnesses and counterexamples -/

instance {ε α : Type} [DecidableEq ε] [DecidableEq α] : DecidableEq (Except ε α) :=
  fun a b =>
  match a, b with
  | .ok x, .ok y => if h : x = y then .isTrue (by rw [h]) else .isFalse (by simp [h])
  | .error x, .error y => if h : x = y then .isTrue (by rw [h]) else .isFalse (by simp [h])
  | .ok _, .error _ => .isFalse (by simp)
  | .error _, .ok _ => .isFalse (by simp)

/-- A small populated reference store shared by several concrete runs. -/
def sampleDB : DB :=
  { sizes := [{ code := "STD", display_name := "Standard" }],
    fabrics := [{ name := "Cotton", is_active := true }],
    prints := [{ name := "Flowers", is_active := true }],
    locations := ["Main"],
    statuses := [{ code := "NEW", display_name := "New", sort_order := 0 }],
    customers := [{ full_name := "Amy", phone := "", email := "", address := "" }],
    expense_types := [{ name := "Rent", is_active := true }] }

def w1row : OrderRow :=
  { customer := "Amy", status := "NEW", order_date := "2024-01-01",
    notes := some "first", shipping_fee := some 5, discount := some 2,
    items := [{ size_code := "STD", fabric_type := "Cotton", print_pattern := none,
                qty := 3, unit_price := some 10 }] }

def w1res : DB × Nat :=
  match seedOrderRowCore sampleDB w1row with
  | .ok r => r
  | .error _ => (sampleDB, 0)

theorem C1_order_total_invariant_witness :
    ∃ o', (w1res.1).orders.find? (fun x => x.id == w1res.2) = some o' ∧
      o'.total = o'.subtotal + o'.shipping_fee - o'.discount ∧
      o'.subtotal = sumLineTotals (itemsOfOrder w1res.1 w1res.2) ∧
      ∀ it ∈ itemsOfOrder w1res.1 w1res.2,
        it.line_total = it.unit_price * (it.qty : ℚ) :=
  @C1_order_total_invariant sampleDB w1res.1 w1row w1res.2 rfl

def w2row : OrderRow :=
  { customer := "Amy", status := "NEW", order_date := "2024-02-02",
    notes := some "second", shipping_fee := some 7, discount := some 1,
    items := [{ size_code := "STD", fabric_type := "Cotton", print_pattern := some "Flowers",
                qty := 2, unit_price := none }] }

def w2res : DB × Nat :=
  match seedOrderRowCore sampleDB w2row with
  | .ok r => r
  | .error _ => (sampleDB, 0)

theorem C2_items_rerun_idempotent_witness :
    ∃ db2, seedOrderRowCore w2res.1 w2row = .ok (db2, w2res.2) ∧
      itemsOfOrder db2 w2res.2 = itemsOfOrder w2res.1 w2res.2 :=
  @C2_items_rerun_idempotent sampleDB w2res.1 w2row w2res.2 rfl

def w3res : ProductSKU × DB :=
  match getSku sampleDB "STD" "Cotton" (some "Flowers") with
  | .ok r => r
  | .error _ => ({ sku_code := "", size_code := "", fabric_name := "", print_name := none,
                   unit_price := 0, is_active := true }, sampleDB)

theorem C3_sku_code_stability_witness :
    (∀ s₀, findSku sampleDB "STD" "Cotton" (some "Flowers") = some s₀ →
      s₀.sku_code ≠ "" → w3res.1 = s₀ ∧ w3res.2 = sampleDB) ∧
    (∀ s₀, findSku sampleDB "STD" "Cotton" (some "Flowers") = some s₀ →
      s₀.sku_code = "" →
      w3res.1 = { s₀ with sku_code := buildSkuCodeSeed "STD" "Cotton" (some "Flowers") }) ∧
    w3res.1.sku_code ≠ "" ∧
    productSKUSave w3res.1 = w3res.1 ∧
    getSku w3res.2 "STD" "Cotton" (some "Flowers") = .ok (w3res.1, w3res.2) :=
  @C3_sku_code_stability sampleDB w3res.2 "STD" "Cotton" (some "Flowers") w3res.1 rfl

def w6db : DB :=
  { sizes := [{ code := "STD", display_name := "Standard" }],
    fabrics := [{ name := "Cotton", is_active := true }],
    skus := [{ sku_code := "BAG-STD-COTTON-PLAIN", size_code := "STD",
               fabric_name := "Cotton", print_name := none,
               unit_price := 7, is_active := true }] }

def w6row : SkuRow :=
  { size_code := "STD", fabric_type := "Cotton", print_pattern := none,
    unit_price := some 9, is_active := some false }

def w6res : DB :=
  match seedSkuRow w6db w6row with
  | .ok d => d
  | .error _ => w6db

theorem C6_price_overwrite_amended_witness :
    ∃ s, findSku w6res w6row.size_code w6row.fabric_type w6row.print_pattern = some s ∧
      (∀ p, w6row.unit_price = some p →
        s.unit_price = p ∧ s.is_active = w6row.is_active.getD true) ∧
      (w6row.unit_price = none →
        (∀ s₀, findSku w6db w6row.size_code w6row.fabric_type w6row.print_pattern
          = some s₀ → s.unit_price = s₀.unit_price ∧ s.is_active = s₀.is_active) ∧
        (findSku w6db w6row.size_code w6row.fabric_type w6row.print_pattern = none →
          s.unit_price = 0 ∧ s.is_active = true)) :=
  @C6_price_overwrite_amended w6db w6res w6row rfl

/-- State and fixture showing a SKU record that supplies only the active
flag: the flag is not written because the guard checks only `unit_price`. -/
def c6db : DB :=
  { sizes := [{ code := "STD", display_name := "Standard" }],
    fabrics := [{ name := "Cotton", is_active := true }],
    skus := [{ sku_code := "BAG-STD-COTTON-PLAIN", size_code := "STD",
               fabric_name := "Cotton", print_name := none,
               unit_price := 7, is_active := true }] }

def c6row : SkuRow :=
  { size_code := "STD", fabric_type := "Cotton", print_pattern := none,
    unit_price := none, is_active := some false }

theorem C6_counterexample :
    c6row.is_active = some false ∧
    seedSkuRow c6db c6row = .ok c6db ∧
    ∀ s ∈ c6db.skus, s.is_active = true := by
  refine ⟨rfl, rfl, by decide⟩

def c7db : DB := { fabrics := [{ name := "Cotton", is_active := true }] }

def c7data : SeedData :=
  { fabric_materials := [{ fabric_type := "Cotton", is_printed := some true }] }

def c7res : DB :=
  match seedFabrics c7db c7data with
  | .ok d => d
  | .error _ => c7db

theorem C7_counterexample :
    seedFabrics c7db c7data = .ok c7res ∧
    ∃ m ∈ c7res.materials, m.is_printed = true ∧ m.print_name = none := by
  refine ⟨rfl, by decide⟩

theorem C7_raw_material_invariant_amended_witness :
    rawMaterialsOk c7res ∧
    ∀ fn uom (pattern : Option PrintPattern),
      (materialKeyOf fn uom false pattern).print_name = none :=
  @C7_raw_material_invariant_amended c7db c7res c7data
    (fun m hm _ => absurd hm (List.not_mem_nil m)) rfl

def w8order : Order :=
  { id := 7, customer := "Amy", status := "NEW", order_date := "2024-01-01",
    notes := "x", subtotal := 0, shipping_fee := 4, discount := 1, total := 3 }

def w8db : DB :=
  { sizes := [{ code := "STD", display_name := "Standard" }],
    fabrics := [{ name := "Cotton", is_active := true }],
    statuses := [{ code := "NEW", display_name := "New", sort_order := 0 }],
    customers := [{ full_name := "Amy", phone := "", email := "", address := "" }],
    orders := [w8order] }

def w8row : OrderRow :=
  { customer := "Amy", status := "NEW", order_date := "2024-01-01",
    notes := some "x", shipping_fee := some 100, discount := some 50,
    items := [{ size_code := "STD", fabric_type := "Cotton", print_pattern := none,
                qty := 2, unit_price := some 6 }] }

def w8res : DB × Nat :=
  match seedOrderRowCore w8db w8row with
  | .ok r => r
  | .error _ => (w8db, 0)

theorem C8_existing_header_preserved_witness :
    w8res.2 = w8order.id ∧
    ∃ o', (w8res.1).orders.find? (fun x => x.id == w8res.2) = some o' ∧
      o'.status = w8order.status ∧ o'.shipping_fee = w8order.shipping_fee ∧
      o'.discount = w8order.discount ∧
      o'.total = o'.subtotal + w8order.shipping_fee - w8order.discount :=
  @C8_existing_header_preserved w8db w8res.1 w8row w8res.2
    { full_name := "Amy", phone := "", email := "", address := "" } w8order
    rfl rfl rfl

def w9data : SeedData :=
  { orders := [{ customer := "Bob", status := "NEW", order_date := "2024-01-01" }] }

theorem C9_rollback_on_error_witness :
    persistedState sampleDB w9data = sampleDB ∧
    ∀ db2, ¬ seedAll sampleDB w9data = .ok db2 :=
  @C9_rollback_on_error sampleDB w9data (.notFound "Customer" "Bob") rfl

def w10rowM : FabricMaterialRow :=
  { fabric_type := "Cotton", is_printed := some false, print_pattern := some "Nope" }

def w10rowI : FabricInventoryRow :=
  { fabric_type := "Cotton", is_printed := some false, print_pattern := some "Nope",
    location := "Main" }

theorem C10_pattern_lookup_precedes_flag_witness :
    seedFabricMaterialRow sampleDB w10rowM = .error (.notFound "PrintPattern" "Nope") ∧
    seedFabricInventoryRow sampleDB w10rowI = .error (.notFound "PrintPattern" "Nope") :=
  @C10_pattern_lookup_precedes_flag sampleDB w10rowM w10rowI "Nope" "Nope"
    { name := "Cotton", is_active := true } { name := "Cotton", is_active := true }
    rfl rfl rfl rfl rfl rfl rfl rfl

end Bouga
